import Mathlib

/-!
Verification development for the matrix-exponential core (`src/linalg/exp.rs`).

The scalar type of the source is a generic `ComplexField`; the claims under
study concern the real instantiation, so the embedding works over an arbitrary
`LinearOrderedField R`.  The transcendental operations the source obtains from
its scalar-field collaborator (`powf`, `log2`, `ceil`, the `as u64` cast and
the scalar `exp` of the 1-by-1 fast path) are out of scope per the spec and are
passed in as an explicit record of functions, `ScalarOps`.  Machine `u128`
arithmetic of the source's `factorial` is modelled on `Nat` with explicit
wrapping modulo `2 ^ 128`, and the recursion itself is modelled with explicit
fuel so that termination can be discussed.  A Rust panic-style abort (the
`.unwrap()` in `solve_p_q`) is modelled as `none`.
-/

set_option maxHeartbeats 1000000
set_option linter.unusedSectionVars false

/-- Operations supplied by the scalar-field collaborator (spec section 6):
real-exponent power `powf`, base-2 logarithm `log2`, `ceil`, the saturating
`as u64` cast applied by the source to non-negative integral values (`toU64`),
and the scalar exponential used by the 1-by-1 fast path (`sexp`). -/
structure ScalarOps (R : Type) where
  powf : R → R → R
  log2 : R → R
  ceil : R → R
  toU64 : R → ℕ
  sexp : R → R

/-- Square matrices of dimension `n` over `R`, the shape `MatrixN<N, D>` of the
source. -/
abbrev Mat (n : ℕ) (R : Type) := Matrix (Fin n) (Fin n) R

variable {R : Type} [LinearOrderedField R] {n : ℕ}

/-- Source `one_norm` (exp.rs lines 409-426): fold over the columns, taking the
maximum of the running value (started at zero) and the column's sum of absolute
values of entries (an inner fold started at zero). -/
def one_norm (m : Mat n R) : R :=
  (List.finRange n).foldl
    (fun mx j => max mx ((List.finRange n).foldl (fun a i => a + |m i j|) 0)) 0

/-- Modelled from the spec: the matrix collaborator's "maximum entry" reduction
(`v.max()` in the source, spec section 6).  The fold starts from zero, which is
inert for the entrywise non-negative vectors this program feeds it. -/
def vec_max (v : Fin n → R) : R :=
  (List.finRange n).foldl (fun a i => max a (v i)) 0

/-- Source `onenorm_matrix_power_nonm` (exp.rs lines 345-360): starting from the
all-ones vector, left-multiply by the transpose `p` times and return the
maximum entry. -/
def onenorm_matrix_power_nonm (a : Mat n R) (p : ℕ) : R :=
  vec_max ((fun v => a.transpose.mulVec v)^[p] (fun _ => (1 : R)))

/-- Wrapping `u128` decrement: `n - 1` in Rust release mode wraps `0` to
`2 ^ 128 - 1`. -/
def wsub1 (x : ℕ) : ℕ := if x = 0 then 2 ^ 128 - 1 else x - 1

/-- Wrapping `u128` multiplication. -/
def mul128 (x y : ℕ) : ℕ := x * y % 2 ^ 128

/-- Source `factorial` (exp.rs lines 337-342): `if n == 1 { 1 } else
{ n * factorial(n - 1) }` on `u128`, modelled with explicit fuel (`none` means
the recursion did not finish within the given fuel) and wrapping arithmetic. -/
def factorialFuel : ℕ → ℕ → Option ℕ
  | 0, _ => none
  | fuel + 1, x => if x = 1 then some 1 else (factorialFuel fuel (wsub1 x)).map (mul128 x)

/-- Source `ell` (exp.rs lines 362-395).  The source's `factorial` is total with
value `Nat.factorial` on every argument it receives here (all arguments are at
least 1 whenever `1 ≤ m`; see the `factorialFuel` lemmas), so its calls are
rendered with `Nat.factorial`; `u = 2_f64.powf(-53.0)` is rendered through the
collaborator operation `powf`, and `try_convert` is the identity since a single
scalar field stands for both `N::RealField` and `f64`. -/
def ell (ops : ScalarOps R) (a : Mat n R) (m : ℕ) : ℕ :=
  let a_abs := a.map (fun x => |x|)
  let a_abs_onenorm := onenorm_matrix_power_nonm a_abs (2 * m + 1)
  if a_abs_onenorm = 0 then 0
  else
    let choose_2m_m := Nat.factorial (2 * m) / (Nat.factorial m * Nat.factorial (2 * m - m))
    let abs_c_recip := choose_2m_m * Nat.factorial (2 * m + 1)
    let alpha := a_abs_onenorm / one_norm a
    let alpha' := alpha / (abs_c_recip : R)
    let u := ops.powf 2 (-53)
    let log2_alpha_div_u := ops.log2 (alpha' / u)
    let value := ops.ceil (log2_alpha_div_u / (2 * (m : R)))
    if 0 < value then ops.toU64 value else 0

/-- Modelled from the spec: the external LU collaborator ("LU factorization of a
square matrix and solve against a right-hand-side matrix, reporting failure on
singularity", spec section 6).  Failure is reported exactly on a singular
(zero-determinant) coefficient matrix; on success the exact solution
`q⁻¹ * p` is returned, written through the adjugate so that it stays
computable. -/
def lu_solve (q p : Mat n R) : Option (Mat n R) :=
  if q.det = 0 then none else some (q.det⁻¹ • (q.adjugate * p))

/-- Source `solve_p_q` (exp.rs lines 397-407): forms `P = U + V` and
`Q = V - U` and calls `q.lu().solve(&p).unwrap()`.  The `.unwrap()` turns the
solver's reported failure into a panic; a `none` result of this function is
that panic (an abort), not a recoverable value of the source function, whose
Rust type is a plain matrix. -/
def solve_p_q (u v : Mat n R) : Option (Mat n R) :=
  let p := u + v
  let q := v - u
  lu_solve q p

/-- Source struct `ExpmPadeHelper` (exp.rs lines 16-41): the input matrix, a
precomputed identity, the `use_exact_norm` flag, and thirteen optional cache
slots (five even powers, four exact and four approximate norm-derived
scalars). -/
structure ExpmPadeHelper (n : ℕ) (R : Type) where
  use_exact_norm : Bool
  ident : Mat n R
  a : Mat n R
  a2 : Option (Mat n R)
  a4 : Option (Mat n R)
  a6 : Option (Mat n R)
  a8 : Option (Mat n R)
  a10 : Option (Mat n R)
  d4_exact : Option R
  d6_exact : Option R
  d8_exact : Option R
  d10_exact : Option R
  d4_approx : Option R
  d6_approx : Option R
  d8_approx : Option R
  d10_approx : Option R

/-- Source `ExpmPadeHelper::new` (exp.rs lines 49-69): all cache slots start
empty. -/
def ExpmPadeHelper.new (a : Mat n R) (use_exact_norm : Bool) : ExpmPadeHelper n R :=
  ⟨use_exact_norm, 1, a, none, none, none, none, none,
    none, none, none, none, none, none, none, none⟩

/-- Source `calc_a2` (exp.rs lines 71-75). -/
def calc_a2 (h : ExpmPadeHelper n R) : ExpmPadeHelper n R :=
  if h.a2.isNone then { h with a2 := some (h.a * h.a) } else h

/-- Source `calc_a4` (exp.rs lines 77-83): ensures `A²`, then `A⁴ = A²·A²`. -/
def calc_a4 (h : ExpmPadeHelper n R) : ExpmPadeHelper n R :=
  if h.a4.isNone then
    let h' := calc_a2 h
    { h' with a4 := some (h'.a2.getD 0 * h'.a2.getD 0) }
  else h

/-- Source `calc_a6` (exp.rs lines 85-93): ensures `A²,A⁴`, then
`A⁶ = A⁴·A²`. -/
def calc_a6 (h : ExpmPadeHelper n R) : ExpmPadeHelper n R :=
  if h.a6.isNone then
    let h' := calc_a4 (calc_a2 h)
    { h' with a6 := some (h'.a4.getD 0 * h'.a2.getD 0) }
  else h

/-- Source `calc_a8` (exp.rs lines 95-103): ensures `A²,A⁶`, then
`A⁸ = A⁶·A²`. -/
def calc_a8 (h : ExpmPadeHelper n R) : ExpmPadeHelper n R :=
  if h.a8.isNone then
    let h' := calc_a6 (calc_a2 h)
    { h' with a8 := some (h'.a6.getD 0 * h'.a2.getD 0) }
  else h

/-- Source `calc_a10` (exp.rs lines 105-113): ensures `A⁴,A⁶`, then
`A¹⁰ = A⁶·A⁴`. -/
def calc_a10 (h : ExpmPadeHelper n R) : ExpmPadeHelper n R :=
  if h.a10.isNone then
    let h' := calc_a6 (calc_a4 h)
    { h' with a10 := some (h'.a6.getD 0 * h'.a4.getD 0) }
  else h

/-- Source `d4_tight` (exp.rs lines 115-121): ensure `A⁴`, cache
`one_norm(A⁴)^(1/4)` in the exact slot, return it together with the updated
helper (the source mutates `self`; the embedding threads the state). -/
def d4_tight (ops : ScalarOps R) (h : ExpmPadeHelper n R) : R × ExpmPadeHelper n R :=
  let h' :=
    if h.d4_exact.isNone then
      let hc := calc_a4 h
      { hc with d4_exact := some (ops.powf (one_norm (hc.a4.getD 0)) (1 / 4)) }
    else h
  (h'.d4_exact.getD 0, h')

/-- Source `d6_tight` (exp.rs lines 123-129). -/
def d6_tight (ops : ScalarOps R) (h : ExpmPadeHelper n R) : R × ExpmPadeHelper n R :=
  let h' :=
    if h.d6_exact.isNone then
      let hc := calc_a6 h
      { hc with d6_exact := some (ops.powf (one_norm (hc.a6.getD 0)) (1 / 6)) }
    else h
  (h'.d6_exact.getD 0, h')

/-- Source `d8_tight` (exp.rs lines 131-137). -/
def d8_tight (ops : ScalarOps R) (h : ExpmPadeHelper n R) : R × ExpmPadeHelper n R :=
  let h' :=
    if h.d8_exact.isNone then
      let hc := calc_a8 h
      { hc with d8_exact := some (ops.powf (one_norm (hc.a8.getD 0)) (1 / 8)) }
    else h
  (h'.d8_exact.getD 0, h')

/-- Source `d10_tight` (exp.rs lines 139-145). -/
def d10_tight (ops : ScalarOps R) (h : ExpmPadeHelper n R) : R × ExpmPadeHelper n R :=
  let h' :=
    if h.d10_exact.isNone then
      let hc := calc_a10 h
      { hc with d10_exact := some (ops.powf (one_norm (hc.a10.getD 0)) (1 / 10)) }
    else h
  (h'.d10_exact.getD 0, h')

/-- Source `d4_loose` (exp.rs lines 147-162): delegate to `d4_tight` when
`use_exact_norm` is set; otherwise prefer a populated exact slot, else compute
the same formula into the approximate slot. -/
def d4_loose (ops : ScalarOps R) (h : ExpmPadeHelper n R) : R × ExpmPadeHelper n R :=
  if h.use_exact_norm then d4_tight ops h
  else if h.d4_exact.isSome then (h.d4_exact.getD 0, h)
  else
    let h' :=
      if h.d4_approx.isNone then
        let hc := calc_a4 h
        { hc with d4_approx := some (ops.powf (one_norm (hc.a4.getD 0)) (1 / 4)) }
      else h
    (h'.d4_approx.getD 0, h')

/-- Source `d6_loose` (exp.rs lines 164-179). -/
def d6_loose (ops : ScalarOps R) (h : ExpmPadeHelper n R) : R × ExpmPadeHelper n R :=
  if h.use_exact_norm then d6_tight ops h
  else if h.d6_exact.isSome then (h.d6_exact.getD 0, h)
  else
    let h' :=
      if h.d6_approx.isNone then
        let hc := calc_a6 h
        { hc with d6_approx := some (ops.powf (one_norm (hc.a6.getD 0)) (1 / 6)) }
      else h
    (h'.d6_approx.getD 0, h')

/-- Source `d8_loose` (exp.rs lines 181-196). -/
def d8_loose (ops : ScalarOps R) (h : ExpmPadeHelper n R) : R × ExpmPadeHelper n R :=
  if h.use_exact_norm then d8_tight ops h
  else if h.d8_exact.isSome then (h.d8_exact.getD 0, h)
  else
    let h' :=
      if h.d8_approx.isNone then
        let hc := calc_a8 h
        { hc with d8_approx := some (ops.powf (one_norm (hc.a8.getD 0)) (1 / 8)) }
      else h
    (h'.d8_approx.getD 0, h')

/-- Source `d10_loose` (exp.rs lines 198-213). -/
def d10_loose (ops : ScalarOps R) (h : ExpmPadeHelper n R) : R × ExpmPadeHelper n R :=
  if h.use_exact_norm then d10_tight ops h
  else if h.d10_exact.isSome then (h.d10_exact.getD 0, h)
  else
    let h' :=
      if h.d10_approx.isNone then
        let hc := calc_a10 h
        { hc with d10_approx := some (ops.powf (one_norm (hc.a10.getD 0)) (1 / 10)) }
      else h
    (h'.d10_approx.getD 0, h')

/-- Source `pade3` (exp.rs lines 215-222), coefficients `[120, 60, 12, 1]`;
matrix-times-scalar `m * b[i]` is rendered as the scalar action `b[i] • m`. -/
def pade3 (h : ExpmPadeHelper n R) : (Mat n R × Mat n R) × ExpmPadeHelper n R :=
  let b0 : R := 120
  let b1 : R := 60
  let b2 : R := 12
  let b3 : R := 1
  let h' := calc_a2 h
  let a2 := h'.a2.getD 0
  let u := h'.a * (b3 • a2 + b1 • h'.ident)
  let v := b2 • a2 + b0 • h'.ident
  ((u, v), h')

/-- Source `pade5` (exp.rs lines 224-243), coefficients
`[30240, 15120, 3360, 420, 30, 1]`.  Note that the source calls `calc_a2` and
then `calc_a6` (which fills `a2`, `a4` and also `a6`), although the formulas
only read `a2` and `a4`. -/
def pade5 (h : ExpmPadeHelper n R) : (Mat n R × Mat n R) × ExpmPadeHelper n R :=
  let b0 : R := 30240
  let b1 : R := 15120
  let b2 : R := 3360
  let b3 : R := 420
  let b4 : R := 30
  let b5 : R := 1
  let h' := calc_a6 (calc_a2 h)
  let u := h'.a * (b5 • h'.a4.getD 0 + b3 • h'.a2.getD 0 + b1 • h'.ident)
  let v := b4 • h'.a4.getD 0 + b2 • h'.a2.getD 0 + b0 • h'.ident
  ((u, v), h')

/-- Source `pade7` (exp.rs lines 245-269), coefficients
`[17297280, 8648640, 1995840, 277200, 25200, 1512, 56, 1]`. -/
def pade7 (h : ExpmPadeHelper n R) : (Mat n R × Mat n R) × ExpmPadeHelper n R :=
  let b0 : R := 17297280
  let b1 : R := 8648640
  let b2 : R := 1995840
  let b3 : R := 277200
  let b4 : R := 25200
  let b5 : R := 1512
  let b6 : R := 56
  let b7 : R := 1
  let h' := calc_a6 (calc_a4 (calc_a2 h))
  let u := h'.a *
    (b7 • h'.a6.getD 0 + b5 • h'.a4.getD 0 + b3 • h'.a2.getD 0 + b1 • h'.ident)
  let v := b6 • h'.a6.getD 0 + b4 • h'.a4.getD 0 + b2 • h'.a2.getD 0 + b0 • h'.ident
  ((u, v), h')

/-- Source `pade9` (exp.rs lines 271-300), coefficients
`[17643225600, 8821612800, 2075673600, 302702400, 30270240, 2162160, 110880,
3960, 90, 1]`. -/
def pade9 (h : ExpmPadeHelper n R) : (Mat n R × Mat n R) × ExpmPadeHelper n R :=
  let b0 : R := 17643225600
  let b1 : R := 8821612800
  let b2 : R := 2075673600
  let b3 : R := 302702400
  let b4 : R := 30270240
  let b5 : R := 2162160
  let b6 : R := 110880
  let b7 : R := 3960
  let b8 : R := 90
  let b9 : R := 1
  let h' := calc_a8 (calc_a6 (calc_a4 (calc_a2 h)))
  let u := h'.a *
    (b9 • h'.a8.getD 0 + b7 • h'.a6.getD 0 + b5 • h'.a4.getD 0 +
      b3 • h'.a2.getD 0 + b1 • h'.ident)
  let v := b8 • h'.a8.getD 0 + b6 • h'.a6.getD 0 + b4 • h'.a4.getD 0 +
    b2 • h'.a2.getD 0 + b0 • h'.ident
  ((u, v), h')

/-- Source `pade13_scaled` (exp.rs lines 302-334): the scaled powers
`mb = A·2⁻ˢ`, `mb2 = A²·2⁻²ˢ`, `mb4 = A⁴·2⁻⁴ˢ`, `mb6 = A⁶·2⁻⁶ˢ` (through the
collaborator `powf`, matching `2.0_f64.powf(-k·s)`), and the degree-13
U/V construction. -/
def pade13_scaled (ops : ScalarOps R) (h : ExpmPadeHelper n R) (s : ℕ) :
    (Mat n R × Mat n R) × ExpmPadeHelper n R :=
  let b0 : R := 64764752532480000
  let b1 : R := 32382376266240000
  let b2 : R := 7771770303897600
  let b3 : R := 1187353796428800
  let b4 : R := 129060195264000
  let b5 : R := 10559470521600
  let b6 : R := 670442572800
  let b7 : R := 33522128640
  let b8 : R := 1323241920
  let b9 : R := 40840800
  let b10 : R := 960960
  let b11 : R := 16380
  let b12 : R := 182
  let b13 : R := 1
  let mb := ops.powf 2 (-(s : R)) • h.a
  let h' := calc_a6 (calc_a4 (calc_a2 h))
  let mb2 := ops.powf 2 (-(2 * (s : R))) • h'.a2.getD 0
  let mb4 := ops.powf 2 (-(4 * (s : R))) • h'.a4.getD 0
  let mb6 := ops.powf 2 (-(6 * (s : R))) • h'.a6.getD 0
  let u2 := mb6 * (b13 • mb6 + b11 • mb4 + b9 • mb2)
  let u := mb * (u2 + b7 • mb6 + b5 • mb4 + b3 • mb2 + b1 • h'.ident)
  let v2 := mb6 * (b12 • mb6 + b10 • mb4 + b8 • mb2)
  let v := v2 + b6 • mb6 + b4 • mb4 + b2 • mb2 + b0 • h'.ident
  ((u, v), h')

/-- Source squaring loop of `exp` (exp.rs lines 489-491): `x = x·x`, repeated
`s` times. -/
def square_iter : ℕ → Mat n R → Mat n R
  | 0, x => x
  | k + 1, x => square_iter k (x * x)

/-- First accessor call of `exp` (exp.rs line 446): `h.d4_loose()` on the fresh
`use_exact_norm = true` helper; the pair is the returned scalar and the mutated
helper. -/
def expH1 (ops : ScalarOps R) (A : Mat n R) : R × ExpmPadeHelper n R :=
  d4_loose ops (ExpmPadeHelper.new A true)

/-- Second accessor call of `exp` (line 446): `h.d6_loose()`. -/
def expH2 (ops : ScalarOps R) (A : Mat n R) : R × ExpmPadeHelper n R :=
  d6_loose ops (expH1 ops A).2

/-- Third accessor call of `exp` (line 452): `h.d4_tight()`. -/
def expH3 (ops : ScalarOps R) (A : Mat n R) : R × ExpmPadeHelper n R :=
  d4_tight ops (expH2 ops A).2

/-- Fourth accessor call of `exp` (line 452): `h.d6_loose()`. -/
def expH4 (ops : ScalarOps R) (A : Mat n R) : R × ExpmPadeHelper n R :=
  d6_loose ops (expH3 ops A).2

/-- Fifth accessor call of `exp` (line 458): `h.d6_tight()`. -/
def expH5 (ops : ScalarOps R) (A : Mat n R) : R × ExpmPadeHelper n R :=
  d6_tight ops (expH4 ops A).2

/-- Sixth accessor call of `exp` (line 458): `h.d8_loose()`. -/
def expH6 (ops : ScalarOps R) (A : Mat n R) : R × ExpmPadeHelper n R :=
  d8_loose ops (expH5 ops A).2

/-- Seventh accessor call of `exp` (line 468): `h.d8_loose()` again. -/
def expH7 (ops : ScalarOps R) (A : Mat n R) : R × ExpmPadeHelper n R :=
  d8_loose ops (expH6 ops A).2

/-- Eighth accessor call of `exp` (line 468): `h.d10_loose()`. -/
def expH8 (ops : ScalarOps R) (A : Mat n R) : R × ExpmPadeHelper n R :=
  d10_loose ops (expH7 ops A).2

/-- Source `exp` (exp.rs lines 438-493): 1-by-1 fast path, helper with
`use_exact_norm = true`, the threshold cascade over degrees 3/5/7/9, and the
scaled degree-13 path with repeated squaring.  The sequential mutations of the
source helper are threaded through the snapshots `expH1`-`expH8` (each is the
value-and-helper pair after one accessor call, in source order).  The decimal
thresholds are the source literals; a `none` result propagates the `.unwrap()`
panic of `solve_p_q`. -/
def exp (ops : ScalarOps R) (A : Mat n R) : Option (Mat n R) :=
  if n = 1 then some (A.map ops.sexp)
  else
    if max (expH1 ops A).1 (expH2 ops A).1 < (1.495585217958292e-2 : R) ∧
        ell ops (expH2 ops A).2.a 3 = 0 then
      solve_p_q (pade3 (expH2 ops A).2).1.1 (pade3 (expH2 ops A).2).1.2
    else if max (expH3 ops A).1 (expH4 ops A).1 < (2.539398330063230e-1 : R) ∧
        ell ops (expH4 ops A).2.a 5 = 0 then
      solve_p_q (pade5 (expH4 ops A).2).1.1 (pade5 (expH4 ops A).2).1.2
    else if max (expH5 ops A).1 (expH6 ops A).1 < (9.504178996162932e-1 : R) ∧
        ell ops (expH6 ops A).2.a 7 = 0 then
      solve_p_q (pade7 (expH6 ops A).2).1.1 (pade7 (expH6 ops A).2).1.2
    else if max (expH5 ops A).1 (expH6 ops A).1 < (2.097847961257068e0 : R) ∧
        ell ops (expH6 ops A).2.a 9 = 0 then
      solve_p_q (pade9 (expH6 ops A).2).1.1 (pade9 (expH6 ops A).2).1.2
    else
      let eta_5 := min (max (expH5 ops A).1 (expH6 ops A).1)
        (max (expH7 ops A).1 (expH8 ops A).1)
      let s0 : ℕ :=
        if eta_5 = 0 then 0
        else
          let l2 := ops.ceil (ops.log2 (eta_5 / (4.25 : R)))
          if l2 < 0 then 0 else ops.toU64 l2
      let s := s0 + ell ops (ops.powf 2 (-(s0 : R)) • (expH8 ops A).2.a) 13
      let uv := pade13_scaled ops (expH8 ops A).2 s
      Option.map (square_iter s) (solve_p_q uv.1.1 uv.1.2)

/-- Value of the cached slot `A² = A·A` as a pure function of the input. -/
def a2v (A : Mat n R) : Mat n R := A * A

/-- Value of the cached slot `A⁴ = A²·A²`. -/
def a4v (A : Mat n R) : Mat n R := a2v A * a2v A

/-- Value of the cached slot `A⁶ = A⁴·A²`. -/
def a6v (A : Mat n R) : Mat n R := a4v A * a2v A

/-- Value of the cached slot `A⁸ = A⁶·A²`. -/
def a8v (A : Mat n R) : Mat n R := a6v A * a2v A

/-- Value of the cached slot `A¹⁰ = A⁶·A⁴`. -/
def a10v (A : Mat n R) : Mat n R := a6v A * a4v A

/-- Value `one_norm(A⁴)^(1/4)` cached by `d4_tight`/`d4_loose`, as a pure
function of the input matrix. -/
def d4v (ops : ScalarOps R) (A : Mat n R) : R := ops.powf (one_norm (a4v A)) (1 / 4)

/-- Value `one_norm(A⁶)^(1/6)` cached by `d6_tight`/`d6_loose`. -/
def d6v (ops : ScalarOps R) (A : Mat n R) : R := ops.powf (one_norm (a6v A)) (1 / 6)

/-- Value `one_norm(A⁸)^(1/8)` cached by `d8_tight`/`d8_loose`. -/
def d8v (ops : ScalarOps R) (A : Mat n R) : R := ops.powf (one_norm (a8v A)) (1 / 8)

/-- Value `one_norm(A¹⁰)^(1/10)` cached by `d10_tight`/`d10_loose`. -/
def d10v (ops : ScalarOps R) (A : Mat n R) : R := ops.powf (one_norm (a10v A)) (1 / 10)

/-- The `(U, V)` pair built by `pade3`, as a pure function of the input. -/
def pade3_of (A : Mat n R) : Mat n R × Mat n R :=
  (A * ((1 : R) • a2v A + (60 : R) • (1 : Mat n R)),
    (12 : R) • a2v A + (120 : R) • (1 : Mat n R))

/-- The `(U, V)` pair built by `pade5`. -/
def pade5_of (A : Mat n R) : Mat n R × Mat n R :=
  (A * ((1 : R) • a4v A + (420 : R) • a2v A + (15120 : R) • (1 : Mat n R)),
    (30 : R) • a4v A + (3360 : R) • a2v A + (30240 : R) • (1 : Mat n R))

/-- The `(U, V)` pair built by `pade7`. -/
def pade7_of (A : Mat n R) : Mat n R × Mat n R :=
  (A * ((1 : R) • a6v A + (1512 : R) • a4v A + (277200 : R) • a2v A +
      (8648640 : R) • (1 : Mat n R)),
    (56 : R) • a6v A + (25200 : R) • a4v A + (1995840 : R) • a2v A +
      (17297280 : R) • (1 : Mat n R))

/-- The `(U, V)` pair built by `pade9`. -/
def pade9_of (A : Mat n R) : Mat n R × Mat n R :=
  (A * ((1 : R) • a8v A + (3960 : R) • a6v A + (2162160 : R) • a4v A +
      (302702400 : R) • a2v A + (8821612800 : R) • (1 : Mat n R)),
    (90 : R) • a8v A + (110880 : R) • a6v A + (30270240 : R) • a4v A +
      (2075673600 : R) • a2v A + (17643225600 : R) • (1 : Mat n R))

/-- The `(U, V)` pair built by `pade13_scaled` for scaling exponent `s`, as a
pure function of the input. -/
def pade13_of (ops : ScalarOps R) (A : Mat n R) (s : ℕ) : Mat n R × Mat n R :=
  let mb := ops.powf 2 (-(s : R)) • A
  let mb2 := ops.powf 2 (-(2 * (s : R))) • a2v A
  let mb4 := ops.powf 2 (-(4 * (s : R))) • a4v A
  let mb6 := ops.powf 2 (-(6 * (s : R))) • a6v A
  let u2 := mb6 * ((1 : R) • mb6 + (16380 : R) • mb4 + (40840800 : R) • mb2)
  let u := mb * (u2 + (33522128640 : R) • mb6 + (10559470521600 : R) • mb4 +
    (1187353796428800 : R) • mb2 + (32382376266240000 : R) • (1 : Mat n R))
  let v2 := mb6 * ((182 : R) • mb6 + (960960 : R) • mb4 + (1323241920 : R) • mb2)
  let v := v2 + (670442572800 : R) • mb6 + (129060195264000 : R) • mb4 +
    (7771770303897600 : R) • mb2 + (64764752532480000 : R) • (1 : Mat n R)
  (u, v)

/-- The threshold cascade of `exp` written with the pure per-matrix values
`d4v`/`d6v`/`d8v`/`d10v` instead of the memoizing accessors (the sentence-level
reading of spec section 4.3, steps 3-9). -/
def exp_cascade (ops : ScalarOps R) (A : Mat n R) : Option (Mat n R) :=
  if max (d4v ops A) (d6v ops A) < (1.495585217958292e-2 : R) ∧ ell ops A 3 = 0 then
    solve_p_q (pade3_of A).1 (pade3_of A).2
  else if max (d4v ops A) (d6v ops A) < (2.539398330063230e-1 : R) ∧ ell ops A 5 = 0 then
    solve_p_q (pade5_of A).1 (pade5_of A).2
  else if max (d6v ops A) (d8v ops A) < (9.504178996162932e-1 : R) ∧ ell ops A 7 = 0 then
    solve_p_q (pade7_of A).1 (pade7_of A).2
  else if max (d6v ops A) (d8v ops A) < (2.097847961257068e0 : R) ∧ ell ops A 9 = 0 then
    solve_p_q (pade9_of A).1 (pade9_of A).2
  else
    let eta_5 := min (max (d6v ops A) (d8v ops A)) (max (d8v ops A) (d10v ops A))
    let s0 : ℕ :=
      if eta_5 = 0 then 0
      else
        let l2 := ops.ceil (ops.log2 (eta_5 / (4.25 : R)))
        if l2 < 0 then 0 else ops.toU64 l2
    let s := s0 + ell ops (ops.powf 2 (-(s0 : R)) • A) 13
    Option.map (square_iter s) (solve_p_q (pade13_of ops A s).1 (pade13_of ops A s).2)

/-- Helper state: the helper of `exp` after `d4_loose` on a fresh
`use_exact_norm = true` instance (slots `a2`, `a4`, `d4_exact` filled). -/
def expSt1 (ops : ScalarOps R) (A : Mat n R) : ExpmPadeHelper n R :=
  ⟨true, 1, A, some (a2v A), some (a4v A), none, none, none,
    some (d4v ops A), none, none, none, none, none, none, none⟩

/-- Helper state after the subsequent `d6_loose` (adds `a6`, `d6_exact`). -/
def expSt2 (ops : ScalarOps R) (A : Mat n R) : ExpmPadeHelper n R :=
  ⟨true, 1, A, some (a2v A), some (a4v A), some (a6v A), none, none,
    some (d4v ops A), some (d6v ops A), none, none, none, none, none, none⟩

/-- Helper state after the subsequent `d8_loose` (adds `a8`, `d8_exact`). -/
def expSt3 (ops : ScalarOps R) (A : Mat n R) : ExpmPadeHelper n R :=
  ⟨true, 1, A, some (a2v A), some (a4v A), some (a6v A), some (a8v A), none,
    some (d4v ops A), some (d6v ops A), some (d8v ops A), none, none, none, none, none⟩

/-- Helper state after the subsequent `d10_loose` (adds `a10`, `d10_exact`). -/
def expSt4 (ops : ScalarOps R) (A : Mat n R) : ExpmPadeHelper n R :=
  ⟨true, 1, A, some (a2v A), some (a4v A), some (a6v A), some (a8v A), some (a10v A),
    some (d4v ops A), some (d6v ops A), some (d8v ops A), some (d10v ops A),
    none, none, none, none⟩

/-- Simple computable collaborator instance over `ℚ` used by the concrete
witnesses: `powf` returns its base unchanged, `log2` is zero, `ceil` is the
identity, the cast is zero and the scalar exponential is constantly one. -/
def ratOps : ScalarOps ℚ := ⟨fun x _ => x, fun _ => 0, fun x => x, fun _ => 0, fun _ => 1⟩

/-- Collaborator instance over `ℚ` whose `powf` is the constant 100, driving
every norm-derived quantity above all thresholds (used to exercise the
degree-13 path). -/
def ratOpsBig : ScalarOps ℚ := ⟨fun _ _ => 100, fun _ => 0, fun x => x, fun _ => 0, fun _ => 1⟩

/-- Cache coherence: whenever one of the thirteen optional slots of a helper is
populated, it holds exactly the canonical value derived from the held matrix
through the minimal chain (`a2v` to `a10v`, `d4v` to `d10v`). -/
structure Coherent (ops : ScalarOps R) (h : ExpmPadeHelper n R) : Prop where
  ha2 : h.a2 = none ∨ h.a2 = some (a2v h.a)
  ha4 : h.a4 = none ∨ h.a4 = some (a4v h.a)
  ha6 : h.a6 = none ∨ h.a6 = some (a6v h.a)
  ha8 : h.a8 = none ∨ h.a8 = some (a8v h.a)
  ha10 : h.a10 = none ∨ h.a10 = some (a10v h.a)
  hd4e : h.d4_exact = none ∨ h.d4_exact = some (d4v ops h.a)
  hd6e : h.d6_exact = none ∨ h.d6_exact = some (d6v ops h.a)
  hd8e : h.d8_exact = none ∨ h.d8_exact = some (d8v ops h.a)
  hd10e : h.d10_exact = none ∨ h.d10_exact = some (d10v ops h.a)
  hd4a : h.d4_approx = none ∨ h.d4_approx = some (d4v ops h.a)
  hd6a : h.d6_approx = none ∨ h.d6_approx = some (d6v ops h.a)
  hd8a : h.d8_approx = none ∨ h.d8_approx = some (d8v ops h.a)
  hd10a : h.d10_approx = none ∨ h.d10_approx = some (d10v ops h.a)

/-- Cache monotonicity from `h` to `h'`: a populated slot keeps its exact value
("computed at most once and never invalidated"). -/
structure CacheMono (h h' : ExpmPadeHelper n R) : Prop where
  a2 : ∀ x, h.a2 = some x → h'.a2 = some x
  a4 : ∀ x, h.a4 = some x → h'.a4 = some x
  a6 : ∀ x, h.a6 = some x → h'.a6 = some x
  a8 : ∀ x, h.a8 = some x → h'.a8 = some x
  a10 : ∀ x, h.a10 = some x → h'.a10 = some x
  d4e : ∀ x, h.d4_exact = some x → h'.d4_exact = some x
  d6e : ∀ x, h.d6_exact = some x → h'.d6_exact = some x
  d8e : ∀ x, h.d8_exact = some x → h'.d8_exact = some x
  d10e : ∀ x, h.d10_exact = some x → h'.d10_exact = some x
  d4a : ∀ x, h.d4_approx = some x → h'.d4_approx = some x
  d6a : ∀ x, h.d6_approx = some x → h'.d6_approx = some x
  d8a : ∀ x, h.d8_approx = some x → h'.d8_approx = some x
  d10a : ∀ x, h.d10_approx = some x → h'.d10_approx = some x

/-- The `ell` computation as the spec states it (claim C5): the same norm
estimate, but the combinatorial constant written as `C(2m,m)·(2m+1)!` with the
binomial coefficient `Nat.choose`, the unit roundoff `u = powf(2,-53)`
(the collaborator rendering of `2⁻⁵³`), and the negative-result clip. -/
def ell_spec (ops : ScalarOps R) (a : Mat n R) (m : ℕ) : ℕ :=
  let est := onenorm_matrix_power_nonm (a.map (fun x => |x|)) (2 * m + 1)
  if est = 0 then 0
  else
    let c := Nat.choose (2 * m) m * Nat.factorial (2 * m + 1)
    let alpha := est / one_norm a / (c : R)
    let value := ops.ceil (ops.log2 (alpha / ops.powf 2 (-53)) / (2 * (m : R)))
    if 0 < value then ops.toU64 value else 0

theorem expSt2_a (ops : ScalarOps R) (A : Mat n R) : (expSt2 ops A).a = A := rfl

theorem expSt3_a (ops : ScalarOps R) (A : Mat n R) : (expSt3 ops A).a = A := rfl

theorem expSt4_a (ops : ScalarOps R) (A : Mat n R) : (expSt4 ops A).a = A := rfl

theorem d4_loose_new (ops : ScalarOps R) (A : Mat n R) :
    d4_loose ops (ExpmPadeHelper.new A true) = (d4v ops A, expSt1 ops A) := rfl

theorem d6_loose_st1 (ops : ScalarOps R) (A : Mat n R) :
    d6_loose ops (expSt1 ops A) = (d6v ops A, expSt2 ops A) := rfl

theorem d4_tight_st2 (ops : ScalarOps R) (A : Mat n R) :
    d4_tight ops (expSt2 ops A) = (d4v ops A, expSt2 ops A) := rfl

theorem d6_loose_st2 (ops : ScalarOps R) (A : Mat n R) :
    d6_loose ops (expSt2 ops A) = (d6v ops A, expSt2 ops A) := rfl

theorem d6_tight_st2 (ops : ScalarOps R) (A : Mat n R) :
    d6_tight ops (expSt2 ops A) = (d6v ops A, expSt2 ops A) := rfl

theorem d8_loose_st2 (ops : ScalarOps R) (A : Mat n R) :
    d8_loose ops (expSt2 ops A) = (d8v ops A, expSt3 ops A) := rfl

theorem d8_loose_st3 (ops : ScalarOps R) (A : Mat n R) :
    d8_loose ops (expSt3 ops A) = (d8v ops A, expSt3 ops A) := rfl

theorem d10_loose_st3 (ops : ScalarOps R) (A : Mat n R) :
    d10_loose ops (expSt3 ops A) = (d10v ops A, expSt4 ops A) := rfl

theorem pade3_st2 (ops : ScalarOps R) (A : Mat n R) :
    pade3 (expSt2 ops A) = (pade3_of A, expSt2 ops A) := rfl

theorem pade5_st2 (ops : ScalarOps R) (A : Mat n R) :
    pade5 (expSt2 ops A) = (pade5_of A, expSt2 ops A) := rfl

theorem pade7_st3 (ops : ScalarOps R) (A : Mat n R) :
    pade7 (expSt3 ops A) = (pade7_of A, expSt3 ops A) := rfl

theorem pade9_st3 (ops : ScalarOps R) (A : Mat n R) :
    pade9 (expSt3 ops A) = (pade9_of A, expSt3 ops A) := rfl

theorem pade13_st4 (ops : ScalarOps R) (A : Mat n R) (s : ℕ) :
    pade13_scaled ops (expSt4 ops A) s = (pade13_of ops A s, expSt4 ops A) := rfl

theorem expH1_eq (ops : ScalarOps R) (A : Mat n R) :
    expH1 ops A = (d4v ops A, expSt1 ops A) := d4_loose_new ops A

theorem expH2_eq (ops : ScalarOps R) (A : Mat n R) :
    expH2 ops A = (d6v ops A, expSt2 ops A) := by
  unfold expH2; rw [expH1_eq]; exact d6_loose_st1 ops A

theorem expH3_eq (ops : ScalarOps R) (A : Mat n R) :
    expH3 ops A = (d4v ops A, expSt2 ops A) := by
  unfold expH3; rw [expH2_eq]; exact d4_tight_st2 ops A

theorem expH4_eq (ops : ScalarOps R) (A : Mat n R) :
    expH4 ops A = (d6v ops A, expSt2 ops A) := by
  unfold expH4; rw [expH3_eq]; exact d6_loose_st2 ops A

theorem expH5_eq (ops : ScalarOps R) (A : Mat n R) :
    expH5 ops A = (d6v ops A, expSt2 ops A) := by
  unfold expH5; rw [expH4_eq]; exact d6_tight_st2 ops A

theorem expH6_eq (ops : ScalarOps R) (A : Mat n R) :
    expH6 ops A = (d8v ops A, expSt3 ops A) := by
  unfold expH6; rw [expH5_eq]; exact d8_loose_st2 ops A

theorem expH7_eq (ops : ScalarOps R) (A : Mat n R) :
    expH7 ops A = (d8v ops A, expSt3 ops A) := by
  unfold expH7; rw [expH6_eq]; exact d8_loose_st3 ops A

theorem expH8_eq (ops : ScalarOps R) (A : Mat n R) :
    expH8 ops A = (d10v ops A, expSt4 ops A) := by
  unfold expH8; rw [expH7_eq]; exact d10_loose_st3 ops A

/-- Helper lemma: with the dimension different from 1, `exp` coincides with the
pure threshold cascade.  With `use_exact_norm = true` every accessor computes
exactly the pure value and caches it, so the threaded state walks the explicit
states `expSt1`-`expSt4`. -/
theorem exp_eq_exp_cascade (ops : ScalarOps R) (A : Mat n R) (hn : n ≠ 1) :
    exp ops A = exp_cascade ops A := by
  unfold exp exp_cascade
  rw [if_neg hn, expH1_eq, expH2_eq, expH3_eq, expH4_eq, expH5_eq, expH6_eq,
    expH7_eq, expH8_eq]
  rfl

theorem foldl_add_eq_sum {ι : Type} (f : ι → R) (l : List ι) (c : R) :
    l.foldl (fun a i => a + f i) c = c + (l.map f).sum := by
  induction l generalizing c with
  | nil => simp
  | cons x xs ih => simp [ih, add_assoc]

theorem le_foldl_max {ι : Type} (g : ι → R) (l : List ι) (c : R) :
    c ≤ l.foldl (fun a i => max a (g i)) c := by
  induction l generalizing c with
  | nil => exact le_refl c
  | cons x xs ih => exact le_trans (le_max_left c (g x)) (ih (max c (g x)))

theorem mem_le_foldl_max {ι : Type} (g : ι → R) (l : List ι) (x : ι) :
    ∀ c : R, x ∈ l → g x ≤ l.foldl (fun a i => max a (g i)) c := by
  induction l with
  | nil => intro c hx; cases hx
  | cons y ys ih =>
    intro c hx
    rcases List.mem_cons.mp hx with h | h
    · subst h
      exact le_trans (le_max_right c (g x)) (le_foldl_max g ys (max c (g x)))
    · exact ih (max c (g y)) h

theorem foldl_max_le {ι : Type} (g : ι → R) (l : List ι) :
    ∀ c b : R, c ≤ b → (∀ x ∈ l, g x ≤ b) →
      l.foldl (fun a i => max a (g i)) c ≤ b := by
  induction l with
  | nil => exact fun c b hc _ => hc
  | cons x xs ih =>
    intro c b hc h
    exact ih (max c (g x)) b (max_le hc (h x (List.mem_cons_self x xs)))
      (fun y hy => h y (List.mem_cons_of_mem x hy))

theorem foldl_max_mem {ι : Type} (g : ι → R) (l : List ι) :
    ∀ c : R, l.foldl (fun a i => max a (g i)) c = c ∨
      ∃ x ∈ l, l.foldl (fun a i => max a (g i)) c = g x := by
  induction l with
  | nil => exact fun c => Or.inl rfl
  | cons y ys ih =>
    intro c
    rcases ih (max c (g y)) with h | ⟨x, hx, h⟩
    · rcases max_choice c (g y) with hm | hm
      · exact Or.inl (by rw [List.foldl_cons, h, hm])
      · exact Or.inr ⟨y, List.mem_cons_self y ys, by rw [List.foldl_cons, h, hm]⟩
    · exact Or.inr ⟨x, List.mem_cons_of_mem y hx, by rw [List.foldl_cons, h]⟩

theorem one_norm_col_le (M : Mat n R) (j : Fin n) :
    (∑ i, |M i j|) ≤ one_norm M := by
  have h := mem_le_foldl_max
    (fun j => (List.finRange n).foldl (fun a i => a + |M i j|) 0)
    (List.finRange n) j 0 (List.mem_finRange j)
  have e : (List.finRange n).foldl (fun a i => a + |M i j|) 0 = ∑ i, |M i j| := by
    rw [foldl_add_eq_sum, zero_add, ← Fin.sum_univ_def]
  rw [← e]
  exact h

theorem one_norm_nonneg (M : Mat n R) : 0 ≤ one_norm M :=
  le_foldl_max _ _ 0

theorem one_norm_eq_col (M : Mat n R) (hn : 0 < n) :
    ∃ j, one_norm M = ∑ i, |M i j| := by
  have hnn : ∀ j : Fin n, (0 : R) ≤ ∑ i, |M i j| :=
    fun j => Finset.sum_nonneg (fun i _ => abs_nonneg (M i j))
  rcases foldl_max_mem
      (fun j => (List.finRange n).foldl (fun a i => a + |M i j|) 0)
      (List.finRange n) 0 with h | ⟨j, hj, h⟩
  · refine ⟨⟨0, hn⟩, le_antisymm ?_ (one_norm_col_le M ⟨0, hn⟩)⟩
    rw [show one_norm M = 0 from h]
    exact hnn ⟨0, hn⟩
  · refine ⟨j, ?_⟩
    have h' : one_norm M = (List.finRange n).foldl (fun a i => a + |M i j|) 0 := h
    rw [h', foldl_add_eq_sum, zero_add, ← Fin.sum_univ_def]

theorem one_norm_zero : one_norm (0 : Mat n R) = 0 := by
  refine le_antisymm (foldl_max_le _ _ 0 0 (le_refl 0) ?_) (one_norm_nonneg 0)
  intro j _
  rw [foldl_add_eq_sum, zero_add]
  have h : ∀ i : Fin n, |(0 : Mat n R) i j| = 0 := fun i => by simp
  simp [h]

theorem vec_max_le (v : Fin n → R) (b : R) (hb : 0 ≤ b) (h : ∀ i, v i ≤ b) :
    vec_max v ≤ b :=
  foldl_max_le v (List.finRange n) 0 b hb (fun i _ => h i)

theorem vec_max_nonneg (v : Fin n → R) : 0 ≤ vec_max v :=
  le_foldl_max v (List.finRange n) 0

theorem vec_max_zero : vec_max (fun _ : Fin n => (0 : R)) = 0 :=
  le_antisymm (vec_max_le _ 0 (le_refl 0) (fun _ => le_refl 0)) (vec_max_nonneg _)

theorem onenorm_matrix_power_nonm_zero (p : ℕ) (hp : 0 < p) :
    onenorm_matrix_power_nonm (0 : Mat n R) p = 0 := by
  unfold onenorm_matrix_power_nonm
  obtain ⟨q, rfl⟩ : ∃ q, p = q + 1 := ⟨p - 1, by omega⟩
  rw [Function.iterate_succ_apply]
  have h0 : (0 : Mat n R).transpose.mulVec (fun _ => 1) = (0 : Fin n → R) := by
    rw [Matrix.transpose_zero, Matrix.zero_mulVec]
  have hfix : (fun v : Fin n → R => (0 : Mat n R).transpose.mulVec v) 0 = 0 := by
    simp only [Matrix.transpose_zero, Matrix.zero_mulVec]
  have h1 : (fun v : Fin n → R => (0 : Mat n R).transpose.mulVec v)^[q]
      ((fun v : Fin n → R => (0 : Mat n R).transpose.mulVec v) (fun _ => 1))
      = (0 : Fin n → R) := by
    have hb : (fun v : Fin n → R => (0 : Mat n R).transpose.mulVec v) (fun _ => 1)
        = (0 : Fin n → R) := h0
    rw [hb, Function.iterate_fixed hfix]
  rw [h1]
  exact vec_max_zero

theorem ell_zero_matrix (ops : ScalarOps R) (m : ℕ) : ell ops (0 : Mat n R) m = 0 := by
  have h1 : (0 : Mat n R).map (fun x => |x|) = 0 := by
    ext i j; simp
  have h2 := onenorm_matrix_power_nonm_zero (R := R) (n := n) (2 * m + 1) (by omega)
  simp [ell, h1, h2]

theorem mul128_mod (a b : ℕ) : mul128 a (b % 2 ^ 128) = a * b % 2 ^ 128 := by
  unfold mul128
  rw [Nat.mul_mod, Nat.mod_mod_of_dvd b (dvd_refl (2 ^ 128)), ← Nat.mul_mod]

theorem factorialFuel_eq_of_le :
    ∀ x f : ℕ, 1 ≤ x → x ≤ f → factorialFuel f x = some (Nat.factorial x % 2 ^ 128) := by
  intro x
  induction x with
  | zero => intro f h1 _; omega
  | succ k ih =>
    intro f h1 hf
    obtain ⟨g, rfl⟩ : ∃ g, f = g + 1 := ⟨f - 1, by omega⟩
    by_cases hk : k = 0
    · subst hk
      have hdef : factorialFuel (g + 1) 1 = some 1 := rfl
      rw [hdef]
      decide
    · have hdef : factorialFuel (g + 1) (k + 1) =
          if k + 1 = 1 then some 1
          else (factorialFuel g (wsub1 (k + 1))).map (mul128 (k + 1)) := rfl
      rw [hdef, if_neg (by omega)]
      have hw : wsub1 (k + 1) = k := by unfold wsub1; rw [if_neg (by omega)]; rfl
      rw [hw, ih g (by omega) (by omega)]
      show some (mul128 (k + 1) (Nat.factorial k % 2 ^ 128)) = _
      rw [mul128_mod, Nat.factorial_succ]

theorem factorialFuel_none_of_lt :
    ∀ f x : ℕ, 1 ≤ x → f < x → factorialFuel f x = none := by
  intro f
  induction f with
  | zero => intro x _ _; rfl
  | succ g ih =>
    intro x h1 hlt
    have hdef : factorialFuel (g + 1) x =
        if x = 1 then some 1 else (factorialFuel g (wsub1 x)).map (mul128 x) := rfl
    rw [hdef, if_neg (by omega)]
    have hw : wsub1 x = x - 1 := by unfold wsub1; rw [if_neg (by omega)]
    rw [hw, ih (x - 1) (by omega) (by omega)]
    rfl

theorem factorialFuel_zero_input (f : ℕ) (hf : f < 2 ^ 128) :
    factorialFuel f 0 = none := by
  cases f with
  | zero => rfl
  | succ g =>
    have hdef : factorialFuel (g + 1) 0 =
        if (0 : ℕ) = 1 then some 1 else (factorialFuel g (wsub1 0)).map (mul128 0) := rfl
    rw [hdef, if_neg (by omega)]
    have hw : wsub1 0 = 2 ^ 128 - 1 := rfl
    have h2 : 1 ≤ (2 : ℕ) ^ 128 := Nat.one_le_two_pow
    rw [hw, factorialFuel_none_of_lt g (2 ^ 128 - 1) (by omega) (by omega)]
    rfl

theorem cacheMono_refl (h : ExpmPadeHelper n R) : CacheMono h h :=
  ⟨fun _ => id, fun _ => id, fun _ => id, fun _ => id, fun _ => id, fun _ => id,
    fun _ => id, fun _ => id, fun _ => id, fun _ => id, fun _ => id, fun _ => id,
    fun _ => id⟩

theorem cacheMono_trans {h h' h'' : ExpmPadeHelper n R}
    (m1 : CacheMono h h') (m2 : CacheMono h' h'') : CacheMono h h'' :=
  ⟨fun x hx => m2.a2 x (m1.a2 x hx), fun x hx => m2.a4 x (m1.a4 x hx),
    fun x hx => m2.a6 x (m1.a6 x hx), fun x hx => m2.a8 x (m1.a8 x hx),
    fun x hx => m2.a10 x (m1.a10 x hx), fun x hx => m2.d4e x (m1.d4e x hx),
    fun x hx => m2.d6e x (m1.d6e x hx), fun x hx => m2.d8e x (m1.d8e x hx),
    fun x hx => m2.d10e x (m1.d10e x hx), fun x hx => m2.d4a x (m1.d4a x hx),
    fun x hx => m2.d6a x (m1.d6a x hx), fun x hx => m2.d8a x (m1.d8a x hx),
    fun x hx => m2.d10a x (m1.d10a x hx)⟩

theorem coherent_new (ops : ScalarOps R) (A : Mat n R) (b : Bool) :
    Coherent ops (ExpmPadeHelper.new A b) :=
  ⟨Or.inl rfl, Or.inl rfl, Or.inl rfl, Or.inl rfl, Or.inl rfl, Or.inl rfl,
    Or.inl rfl, Or.inl rfl, Or.inl rfl, Or.inl rfl, Or.inl rfl, Or.inl rfl,
    Or.inl rfl⟩

theorem calc_a2_step (ops : ScalarOps R) (h : ExpmPadeHelper n R)
    (hc : Coherent ops h) :
    CacheMono h (calc_a2 h) ∧ Coherent ops (calc_a2 h) ∧
    (calc_a2 h).a = h.a ∧ (calc_a2 h).ident = h.ident ∧
    (calc_a2 h).use_exact_norm = h.use_exact_norm ∧
    (calc_a2 h).a2 = some (a2v h.a) ∧
    (calc_a2 h).a4 = h.a4 ∧ (calc_a2 h).a6 = h.a6 ∧ (calc_a2 h).a8 = h.a8 ∧
    (calc_a2 h).a10 = h.a10 ∧
    (calc_a2 h).d4_exact = h.d4_exact ∧ (calc_a2 h).d6_exact = h.d6_exact ∧
    (calc_a2 h).d8_exact = h.d8_exact ∧ (calc_a2 h).d10_exact = h.d10_exact ∧
    (calc_a2 h).d4_approx = h.d4_approx ∧ (calc_a2 h).d6_approx = h.d6_approx ∧
    (calc_a2 h).d8_approx = h.d8_approx ∧ (calc_a2 h).d10_approx = h.d10_approx := by
  unfold calc_a2
  by_cases h2 : h.a2.isNone
  · rw [if_pos h2]
    have hn : h.a2 = none := Option.isNone_iff_eq_none.mp h2
    refine ⟨⟨?_, fun x hx => hx, fun x hx => hx, fun x hx => hx, fun x hx => hx,
        fun x hx => hx, fun x hx => hx, fun x hx => hx, fun x hx => hx,
        fun x hx => hx, fun x hx => hx, fun x hx => hx, fun x hx => hx⟩,
      ⟨Or.inr rfl, hc.ha4, hc.ha6, hc.ha8, hc.ha10, hc.hd4e, hc.hd6e, hc.hd8e,
        hc.hd10e, hc.hd4a, hc.hd6a, hc.hd8a, hc.hd10a⟩,
      rfl, rfl, rfl, rfl, rfl, rfl, rfl, rfl, rfl, rfl, rfl, rfl, rfl, rfl, rfl, rfl⟩
    intro x hx
    rw [hn] at hx
    cases hx
  · rw [if_neg h2]
    have hs : h.a2 = some (a2v h.a) :=
      hc.ha2.resolve_left (fun e => h2 (by rw [e]; rfl))
    exact ⟨cacheMono_refl h, hc, rfl, rfl, rfl, hs, rfl, rfl, rfl, rfl, rfl, rfl,
      rfl, rfl, rfl, rfl, rfl, rfl⟩

theorem calc_a4_step (ops : ScalarOps R) (h : ExpmPadeHelper n R)
    (hc : Coherent ops h) :
    CacheMono h (calc_a4 h) ∧ Coherent ops (calc_a4 h) ∧
    (calc_a4 h).a = h.a ∧ (calc_a4 h).ident = h.ident ∧
    (calc_a4 h).use_exact_norm = h.use_exact_norm ∧
    (calc_a4 h).a4 = some (a4v h.a) ∧
    ((calc_a4 h).a2 = h.a2 ∨ (calc_a4 h).a2 = some (a2v h.a)) ∧
    (calc_a4 h).a6 = h.a6 ∧ (calc_a4 h).a8 = h.a8 ∧ (calc_a4 h).a10 = h.a10 ∧
    (calc_a4 h).d4_exact = h.d4_exact ∧ (calc_a4 h).d6_exact = h.d6_exact ∧
    (calc_a4 h).d8_exact = h.d8_exact ∧ (calc_a4 h).d10_exact = h.d10_exact ∧
    (calc_a4 h).d4_approx = h.d4_approx ∧ (calc_a4 h).d6_approx = h.d6_approx ∧
    (calc_a4 h).d8_approx = h.d8_approx ∧ (calc_a4 h).d10_approx = h.d10_approx := by
  unfold calc_a4
  by_cases h4 : h.a4.isNone
  · rw [if_pos h4]
    obtain ⟨m2, co2, ha, hi, hu, ha2, f4, f6, f8, f10, e4, e6, e8, e10, p4, p6, p8, p10⟩ :=
      calc_a2_step ops h hc
    refine ⟨⟨m2.a2, ?_, m2.a6, m2.a8, m2.a10, m2.d4e, m2.d6e, m2.d8e, m2.d10e,
        m2.d4a, m2.d6a, m2.d8a, m2.d10a⟩,
      ⟨co2.ha2, Or.inr ?_, co2.ha6, co2.ha8, co2.ha10, co2.hd4e, co2.hd6e,
        co2.hd8e, co2.hd10e, co2.hd4a, co2.hd6a, co2.hd8a, co2.hd10a⟩,
      ha, hi, hu, ?_, Or.inr ha2, f6, f8, f10, e4, e6, e8, e10, p4, p6, p8, p10⟩
    · intro x hx
      rw [Option.isNone_iff_eq_none.mp h4] at hx
      cases hx
    · show some ((calc_a2 h).a2.getD 0 * (calc_a2 h).a2.getD 0)
        = some (a4v (calc_a2 h).a)
      rw [ha2, ha]
      rfl
    · show some ((calc_a2 h).a2.getD 0 * (calc_a2 h).a2.getD 0) = some (a4v h.a)
      rw [ha2]
      rfl
  · rw [if_neg h4]
    have hs4 : h.a4 = some (a4v h.a) :=
      hc.ha4.resolve_left (fun e => h4 (by rw [e]; rfl))
    exact ⟨cacheMono_refl h, hc, rfl, rfl, rfl, hs4, Or.inl rfl, rfl, rfl, rfl,
      rfl, rfl, rfl, rfl, rfl, rfl, rfl, rfl⟩

theorem calc_a6_step (ops : ScalarOps R) (h : ExpmPadeHelper n R)
    (hc : Coherent ops h) :
    CacheMono h (calc_a6 h) ∧ Coherent ops (calc_a6 h) ∧
    (calc_a6 h).a = h.a ∧ (calc_a6 h).ident = h.ident ∧
    (calc_a6 h).use_exact_norm = h.use_exact_norm ∧
    (calc_a6 h).a6 = some (a6v h.a) ∧
    ((calc_a6 h).a2 = h.a2 ∨ (calc_a6 h).a2 = some (a2v h.a)) ∧
    ((calc_a6 h).a4 = h.a4 ∨ (calc_a6 h).a4 = some (a4v h.a)) ∧
    (calc_a6 h).a8 = h.a8 ∧ (calc_a6 h).a10 = h.a10 ∧
    (calc_a6 h).d4_exact = h.d4_exact ∧ (calc_a6 h).d6_exact = h.d6_exact ∧
    (calc_a6 h).d8_exact = h.d8_exact ∧ (calc_a6 h).d10_exact = h.d10_exact ∧
    (calc_a6 h).d4_approx = h.d4_approx ∧ (calc_a6 h).d6_approx = h.d6_approx ∧
    (calc_a6 h).d8_approx = h.d8_approx ∧ (calc_a6 h).d10_approx = h.d10_approx := by
  unfold calc_a6
  by_cases h6 : h.a6.isNone
  · rw [if_pos h6]
    obtain ⟨m2, co2, ha, hi, hu, ha2, f4, f6, f8, f10, e4, e6, e8, e10, p4, p6, p8, p10⟩ :=
      calc_a2_step ops h hc
    obtain ⟨m4, co4, ha', hi', hu', ha4', hd2', g6, g8, g10, q4e, q6e, q8e, q10e,
        q4a, q6a, q8a, q10a⟩ := calc_a4_step ops (calc_a2 h) co2
    have hXa : (calc_a4 (calc_a2 h)).a = h.a := by rw [ha', ha]
    have hX2 : (calc_a4 (calc_a2 h)).a2 = some (a2v h.a) := by
      rcases hd2' with d | d
      · rw [d, ha2]
      · rw [d, ha]
    have hX4 : (calc_a4 (calc_a2 h)).a4 = some (a4v h.a) := by rw [ha4', ha]
    refine ⟨⟨fun x hx => m4.a2 x (m2.a2 x hx), fun x hx => m4.a4 x (m2.a4 x hx), ?_,
        fun x hx => m4.a8 x (m2.a8 x hx), fun x hx => m4.a10 x (m2.a10 x hx),
        fun x hx => m4.d4e x (m2.d4e x hx), fun x hx => m4.d6e x (m2.d6e x hx),
        fun x hx => m4.d8e x (m2.d8e x hx), fun x hx => m4.d10e x (m2.d10e x hx),
        fun x hx => m4.d4a x (m2.d4a x hx), fun x hx => m4.d6a x (m2.d6a x hx),
        fun x hx => m4.d8a x (m2.d8a x hx), fun x hx => m4.d10a x (m2.d10a x hx)⟩,
      ⟨co4.ha2, co4.ha4, Or.inr ?_, co4.ha8, co4.ha10, co4.hd4e, co4.hd6e,
        co4.hd8e, co4.hd10e, co4.hd4a, co4.hd6a, co4.hd8a, co4.hd10a⟩,
      hXa, by rw [hi', hi], by rw [hu', hu], ?_, Or.inr hX2, Or.inr hX4,
      by rw [g8, f8], by rw [g10, f10], by rw [q4e, e4], by rw [q6e, e6],
      by rw [q8e, e8], by rw [q10e, e10], by rw [q4a, p4], by rw [q6a, p6],
      by rw [q8a, p8], by rw [q10a, p10]⟩
    · intro x hx
      rw [Option.isNone_iff_eq_none.mp h6] at hx
      cases hx
    · show some ((calc_a4 (calc_a2 h)).a4.getD 0 * (calc_a4 (calc_a2 h)).a2.getD 0)
        = some (a6v (calc_a4 (calc_a2 h)).a)
      rw [hX4, hX2, hXa]
      rfl
    · show some ((calc_a4 (calc_a2 h)).a4.getD 0 * (calc_a4 (calc_a2 h)).a2.getD 0)
        = some (a6v h.a)
      rw [hX4, hX2]
      rfl
  · rw [if_neg h6]
    have hs6 : h.a6 = some (a6v h.a) :=
      hc.ha6.resolve_left (fun e => h6 (by rw [e]; rfl))
    exact ⟨cacheMono_refl h, hc, rfl, rfl, rfl, hs6, Or.inl rfl, Or.inl rfl, rfl,
      rfl, rfl, rfl, rfl, rfl, rfl, rfl, rfl, rfl⟩

theorem calc_a8_step (ops : ScalarOps R) (h : ExpmPadeHelper n R)
    (hc : Coherent ops h) :
    CacheMono h (calc_a8 h) ∧ Coherent ops (calc_a8 h) ∧
    (calc_a8 h).a = h.a ∧ (calc_a8 h).ident = h.ident ∧
    (calc_a8 h).use_exact_norm = h.use_exact_norm ∧
    (calc_a8 h).a8 = some (a8v h.a) ∧
    ((calc_a8 h).a2 = h.a2 ∨ (calc_a8 h).a2 = some (a2v h.a)) ∧
    ((calc_a8 h).a4 = h.a4 ∨ (calc_a8 h).a4 = some (a4v h.a)) ∧
    ((calc_a8 h).a6 = h.a6 ∨ (calc_a8 h).a6 = some (a6v h.a)) ∧
    (calc_a8 h).a10 = h.a10 ∧
    (calc_a8 h).d4_exact = h.d4_exact ∧ (calc_a8 h).d6_exact = h.d6_exact ∧
    (calc_a8 h).d8_exact = h.d8_exact ∧ (calc_a8 h).d10_exact = h.d10_exact ∧
    (calc_a8 h).d4_approx = h.d4_approx ∧ (calc_a8 h).d6_approx = h.d6_approx ∧
    (calc_a8 h).d8_approx = h.d8_approx ∧ (calc_a8 h).d10_approx = h.d10_approx := by
  unfold calc_a8
  by_cases h8 : h.a8.isNone
  · rw [if_pos h8]
    obtain ⟨m2, co2, ha, hi, hu, ha2, f4, f6, f8, f10, e4, e6, e8, e10, p4, p6, p8, p10⟩ :=
      calc_a2_step ops h hc
    obtain ⟨m6, co6, ha', hi', hu', ha6', hd2', hd4', g8, g10, q4e, q6e, q8e, q10e,
        q4a, q6a, q8a, q10a⟩ := calc_a6_step ops (calc_a2 h) co2
    have hXa : (calc_a6 (calc_a2 h)).a = h.a := by rw [ha', ha]
    have hX2 : (calc_a6 (calc_a2 h)).a2 = some (a2v h.a) := by
      rcases hd2' with d | d
      · rw [d, ha2]
      · rw [d, ha]
    have hX6 : (calc_a6 (calc_a2 h)).a6 = some (a6v h.a) := by rw [ha6', ha]
    have hX4 : (calc_a6 (calc_a2 h)).a4 = h.a4 ∨
        (calc_a6 (calc_a2 h)).a4 = some (a4v h.a) := by
      rcases hd4' with d | d
      · exact Or.inl (by rw [d, f4])
      · exact Or.inr (by rw [d, ha])
    refine ⟨⟨fun x hx => m6.a2 x (m2.a2 x hx), fun x hx => m6.a4 x (m2.a4 x hx),
        fun x hx => m6.a6 x (m2.a6 x hx), ?_,
        fun x hx => m6.a10 x (m2.a10 x hx),
        fun x hx => m6.d4e x (m2.d4e x hx), fun x hx => m6.d6e x (m2.d6e x hx),
        fun x hx => m6.d8e x (m2.d8e x hx), fun x hx => m6.d10e x (m2.d10e x hx),
        fun x hx => m6.d4a x (m2.d4a x hx), fun x hx => m6.d6a x (m2.d6a x hx),
        fun x hx => m6.d8a x (m2.d8a x hx), fun x hx => m6.d10a x (m2.d10a x hx)⟩,
      ⟨co6.ha2, co6.ha4, co6.ha6, Or.inr ?_, co6.ha10, co6.hd4e, co6.hd6e,
        co6.hd8e, co6.hd10e, co6.hd4a, co6.hd6a, co6.hd8a, co6.hd10a⟩,
      hXa, by rw [hi', hi], by rw [hu', hu], ?_, Or.inr hX2, hX4, Or.inr hX6,
      by rw [g10, f10], by rw [q4e, e4], by rw [q6e, e6],
      by rw [q8e, e8], by rw [q10e, e10], by rw [q4a, p4], by rw [q6a, p6],
      by rw [q8a, p8], by rw [q10a, p10]⟩
    · intro x hx
      rw [Option.isNone_iff_eq_none.mp h8] at hx
      cases hx
    · show some ((calc_a6 (calc_a2 h)).a6.getD 0 * (calc_a6 (calc_a2 h)).a2.getD 0)
        = some (a8v (calc_a6 (calc_a2 h)).a)
      rw [hX6, hX2, hXa]
      rfl
    · show some ((calc_a6 (calc_a2 h)).a6.getD 0 * (calc_a6 (calc_a2 h)).a2.getD 0)
        = some (a8v h.a)
      rw [hX6, hX2]
      rfl
  · rw [if_neg h8]
    have hs8 : h.a8 = some (a8v h.a) :=
      hc.ha8.resolve_left (fun e => h8 (by rw [e]; rfl))
    exact ⟨cacheMono_refl h, hc, rfl, rfl, rfl, hs8, Or.inl rfl, Or.inl rfl,
      Or.inl rfl, rfl, rfl, rfl, rfl, rfl, rfl, rfl, rfl, rfl⟩

theorem calc_a10_step (ops : ScalarOps R) (h : ExpmPadeHelper n R)
    (hc : Coherent ops h) :
    CacheMono h (calc_a10 h) ∧ Coherent ops (calc_a10 h) ∧
    (calc_a10 h).a = h.a ∧ (calc_a10 h).ident = h.ident ∧
    (calc_a10 h).use_exact_norm = h.use_exact_norm ∧
    (calc_a10 h).a10 = some (a10v h.a) ∧
    ((calc_a10 h).a2 = h.a2 ∨ (calc_a10 h).a2 = some (a2v h.a)) ∧
    ((calc_a10 h).a4 = h.a4 ∨ (calc_a10 h).a4 = some (a4v h.a)) ∧
    ((calc_a10 h).a6 = h.a6 ∨ (calc_a10 h).a6 = some (a6v h.a)) ∧
    (calc_a10 h).a8 = h.a8 ∧
    (calc_a10 h).d4_exact = h.d4_exact ∧ (calc_a10 h).d6_exact = h.d6_exact ∧
    (calc_a10 h).d8_exact = h.d8_exact ∧ (calc_a10 h).d10_exact = h.d10_exact ∧
    (calc_a10 h).d4_approx = h.d4_approx ∧ (calc_a10 h).d6_approx = h.d6_approx ∧
    (calc_a10 h).d8_approx = h.d8_approx ∧ (calc_a10 h).d10_approx = h.d10_approx := by
  unfold calc_a10
  by_cases h10 : h.a10.isNone
  · rw [if_pos h10]
    obtain ⟨m4, co4, ha, hi, hu, ha4, hd2, f6, f8, f10, e4, e6, e8, e10, p4, p6, p8, p10⟩ :=
      calc_a4_step ops h hc
    obtain ⟨m6, co6, ha', hi', hu', ha6', hd2', hd4', g8, g10, q4e, q6e, q8e, q10e,
        q4a, q6a, q8a, q10a⟩ := calc_a6_step ops (calc_a4 h) co4
    have hXa : (calc_a6 (calc_a4 h)).a = h.a := by rw [ha', ha]
    have hX4 : (calc_a6 (calc_a4 h)).a4 = some (a4v h.a) := by
      rcases hd4' with d | d
      · rw [d, ha4]
      · rw [d, ha]
    have hX6 : (calc_a6 (calc_a4 h)).a6 = some (a6v h.a) := by rw [ha6', ha]
    have hX2 : (calc_a6 (calc_a4 h)).a2 = h.a2 ∨
        (calc_a6 (calc_a4 h)).a2 = some (a2v h.a) := by
      rcases hd2' with d | d
      · rcases hd2 with d2 | d2
        · exact Or.inl (by rw [d, d2])
        · exact Or.inr (by rw [d, d2])
      · exact Or.inr (by rw [d, ha])
    refine ⟨⟨fun x hx => m6.a2 x (m4.a2 x hx), fun x hx => m6.a4 x (m4.a4 x hx),
        fun x hx => m6.a6 x (m4.a6 x hx), fun x hx => m6.a8 x (m4.a8 x hx), ?_,
        fun x hx => m6.d4e x (m4.d4e x hx), fun x hx => m6.d6e x (m4.d6e x hx),
        fun x hx => m6.d8e x (m4.d8e x hx), fun x hx => m6.d10e x (m4.d10e x hx),
        fun x hx => m6.d4a x (m4.d4a x hx), fun x hx => m6.d6a x (m4.d6a x hx),
        fun x hx => m6.d8a x (m4.d8a x hx), fun x hx => m6.d10a x (m4.d10a x hx)⟩,
      ⟨co6.ha2, co6.ha4, co6.ha6, co6.ha8, Or.inr ?_, co6.hd4e, co6.hd6e,
        co6.hd8e, co6.hd10e, co6.hd4a, co6.hd6a, co6.hd8a, co6.hd10a⟩,
      hXa, by rw [hi', hi], by rw [hu', hu], ?_, hX2, Or.inr hX4, Or.inr hX6,
      by rw [g8, f8], by rw [q4e, e4], by rw [q6e, e6],
      by rw [q8e, e8], by rw [q10e, e10], by rw [q4a, p4], by rw [q6a, p6],
      by rw [q8a, p8], by rw [q10a, p10]⟩
    · intro x hx
      rw [Option.isNone_iff_eq_none.mp h10] at hx
      cases hx
    · show some ((calc_a6 (calc_a4 h)).a6.getD 0 * (calc_a6 (calc_a4 h)).a4.getD 0)
        = some (a10v (calc_a6 (calc_a4 h)).a)
      rw [hX6, hX4, hXa]
      rfl
    · show some ((calc_a6 (calc_a4 h)).a6.getD 0 * (calc_a6 (calc_a4 h)).a4.getD 0)
        = some (a10v h.a)
      rw [hX6, hX4]
      rfl
  · rw [if_neg h10]
    have hs10 : h.a10 = some (a10v h.a) :=
      hc.ha10.resolve_left (fun e => h10 (by rw [e]; rfl))
    exact ⟨cacheMono_refl h, hc, rfl, rfl, rfl, hs10, Or.inl rfl, Or.inl rfl,
      Or.inl rfl, rfl, rfl, rfl, rfl, rfl, rfl, rfl, rfl, rfl⟩

theorem d4_tight_step (ops : ScalarOps R) (h : ExpmPadeHelper n R)
    (hc : Coherent ops h) :
    (d4_tight ops h).1 = d4v ops h.a ∧ CacheMono h (d4_tight ops h).2 ∧
    Coherent ops (d4_tight ops h).2 ∧ (d4_tight ops h).2.a = h.a := by
  by_cases hd : h.d4_exact.isNone
  · obtain ⟨m, co, ha, hi, hu, hak, _, _, _, _, _, _, _, _, _, _, _, _⟩ :=
      calc_a4_step ops h hc
    have heq : d4_tight ops h =
        (ops.powf (one_norm ((calc_a4 h).a4.getD 0)) (1 / 4),
          { calc_a4 h with d4_exact := some (ops.powf (one_norm ((calc_a4 h).a4.getD 0)) (1 / 4)) }) := by
      unfold d4_tight
      rw [if_pos hd]
      rfl
    have hval : ops.powf (one_norm ((calc_a4 h).a4.getD 0)) (1 / 4)
        = d4v ops h.a := by
      rw [hak]
      rfl
    rw [heq]
    refine ⟨hval, ⟨fun x hx => m.a2 x hx, fun x hx => m.a4 x hx, fun x hx => m.a6 x hx, fun x hx => m.a8 x hx, fun x hx => m.a10 x hx, ?_, fun x hx => m.d6e x hx, fun x hx => m.d8e x hx, fun x hx => m.d10e x hx, fun x hx => m.d4a x hx, fun x hx => m.d6a x hx, fun x hx => m.d8a x hx, fun x hx => m.d10a x hx⟩, ⟨co.ha2, co.ha4, co.ha6, co.ha8, co.ha10, Or.inr ?_, co.hd6e, co.hd8e, co.hd10e, co.hd4a, co.hd6a, co.hd8a, co.hd10a⟩, ha⟩
    · intro x hx
      rw [Option.isNone_iff_eq_none.mp hd] at hx
      cases hx
    · show some (ops.powf (one_norm ((calc_a4 h).a4.getD 0)) (1 / 4))
        = some (d4v ops (calc_a4 h).a)
      rw [hak, ha]
      rfl
  · have hs : h.d4_exact = some (d4v ops h.a) :=
      hc.hd4e.resolve_left (fun e => hd (by rw [e]; rfl))
    have heq : d4_tight ops h = (h.d4_exact.getD 0, h) := by
      unfold d4_tight
      rw [if_neg hd]
    rw [heq]
    exact ⟨by rw [hs]; rfl, cacheMono_refl h, hc, rfl⟩

theorem d4_loose_step (ops : ScalarOps R) (h : ExpmPadeHelper n R)
    (hc : Coherent ops h) :
    (d4_loose ops h).1 = d4v ops h.a ∧ CacheMono h (d4_loose ops h).2 ∧
    Coherent ops (d4_loose ops h).2 ∧ (d4_loose ops h).2.a = h.a := by
  by_cases hflag : h.use_exact_norm
  · have heq : d4_loose ops h = d4_tight ops h := by
      unfold d4_loose
      rw [if_pos hflag]
    rw [heq]
    exact d4_tight_step ops h hc
  · by_cases hsome : h.d4_exact.isSome
    · have hs : h.d4_exact = some (d4v ops h.a) := by
        refine hc.hd4e.resolve_left (fun e => ?_)
        rw [e] at hsome
        cases hsome
      have heq : d4_loose ops h = (h.d4_exact.getD 0, h) := by
        unfold d4_loose
        rw [if_neg hflag, if_pos hsome]
      rw [heq]
      exact ⟨by rw [hs]; rfl, cacheMono_refl h, hc, rfl⟩
    · by_cases hap : h.d4_approx.isNone
      · obtain ⟨m, co, ha, hi, hu, hak, _, _, _, _, _, _, _, _, _, _, _, _⟩ :=
          calc_a4_step ops h hc
        have heq : d4_loose ops h =
            (ops.powf (one_norm ((calc_a4 h).a4.getD 0)) (1 / 4),
              { calc_a4 h with d4_approx := some (ops.powf (one_norm ((calc_a4 h).a4.getD 0)) (1 / 4)) }) := by
          unfold d4_loose
          rw [if_neg hflag, if_neg hsome, if_pos hap]
          rfl
        have hval : ops.powf (one_norm ((calc_a4 h).a4.getD 0)) (1 / 4)
            = d4v ops h.a := by
          rw [hak]
          rfl
        rw [heq]
        refine ⟨hval, ⟨fun x hx => m.a2 x hx, fun x hx => m.a4 x hx, fun x hx => m.a6 x hx, fun x hx => m.a8 x hx, fun x hx => m.a10 x hx, fun x hx => m.d4e x hx, fun x hx => m.d6e x hx, fun x hx => m.d8e x hx, fun x hx => m.d10e x hx, ?_, fun x hx => m.d6a x hx, fun x hx => m.d8a x hx, fun x hx => m.d10a x hx⟩, ⟨co.ha2, co.ha4, co.ha6, co.ha8, co.ha10, co.hd4e, co.hd6e, co.hd8e, co.hd10e, Or.inr ?_, co.hd6a, co.hd8a, co.hd10a⟩, ha⟩
        · intro x hx
          rw [Option.isNone_iff_eq_none.mp hap] at hx
          cases hx
        · show some (ops.powf (one_norm ((calc_a4 h).a4.getD 0)) (1 / 4))
            = some (d4v ops (calc_a4 h).a)
          rw [hak, ha]
          rfl
      · have hs : h.d4_approx = some (d4v ops h.a) :=
          hc.hd4a.resolve_left (fun e => hap (by rw [e]; rfl))
        have heq : d4_loose ops h = (h.d4_approx.getD 0, h) := by
          unfold d4_loose
          rw [if_neg hflag, if_neg hsome, if_neg hap]
        rw [heq]
        exact ⟨by rw [hs]; rfl, cacheMono_refl h, hc, rfl⟩

theorem d6_tight_step (ops : ScalarOps R) (h : ExpmPadeHelper n R)
    (hc : Coherent ops h) :
    (d6_tight ops h).1 = d6v ops h.a ∧ CacheMono h (d6_tight ops h).2 ∧
    Coherent ops (d6_tight ops h).2 ∧ (d6_tight ops h).2.a = h.a := by
  by_cases hd : h.d6_exact.isNone
  · obtain ⟨m, co, ha, hi, hu, hak, _, _, _, _, _, _, _, _, _, _, _, _⟩ :=
      calc_a6_step ops h hc
    have heq : d6_tight ops h =
        (ops.powf (one_norm ((calc_a6 h).a6.getD 0)) (1 / 6),
          { calc_a6 h with d6_exact := some (ops.powf (one_norm ((calc_a6 h).a6.getD 0)) (1 / 6)) }) := by
      unfold d6_tight
      rw [if_pos hd]
      rfl
    have hval : ops.powf (one_norm ((calc_a6 h).a6.getD 0)) (1 / 6)
        = d6v ops h.a := by
      rw [hak]
      rfl
    rw [heq]
    refine ⟨hval, ⟨fun x hx => m.a2 x hx, fun x hx => m.a4 x hx, fun x hx => m.a6 x hx, fun x hx => m.a8 x hx, fun x hx => m.a10 x hx, fun x hx => m.d4e x hx, ?_, fun x hx => m.d8e x hx, fun x hx => m.d10e x hx, fun x hx => m.d4a x hx, fun x hx => m.d6a x hx, fun x hx => m.d8a x hx, fun x hx => m.d10a x hx⟩, ⟨co.ha2, co.ha4, co.ha6, co.ha8, co.ha10, co.hd4e, Or.inr ?_, co.hd8e, co.hd10e, co.hd4a, co.hd6a, co.hd8a, co.hd10a⟩, ha⟩
    · intro x hx
      rw [Option.isNone_iff_eq_none.mp hd] at hx
      cases hx
    · show some (ops.powf (one_norm ((calc_a6 h).a6.getD 0)) (1 / 6))
        = some (d6v ops (calc_a6 h).a)
      rw [hak, ha]
      rfl
  · have hs : h.d6_exact = some (d6v ops h.a) :=
      hc.hd6e.resolve_left (fun e => hd (by rw [e]; rfl))
    have heq : d6_tight ops h = (h.d6_exact.getD 0, h) := by
      unfold d6_tight
      rw [if_neg hd]
    rw [heq]
    exact ⟨by rw [hs]; rfl, cacheMono_refl h, hc, rfl⟩

theorem d6_loose_step (ops : ScalarOps R) (h : ExpmPadeHelper n R)
    (hc : Coherent ops h) :
    (d6_loose ops h).1 = d6v ops h.a ∧ CacheMono h (d6_loose ops h).2 ∧
    Coherent ops (d6_loose ops h).2 ∧ (d6_loose ops h).2.a = h.a := by
  by_cases hflag : h.use_exact_norm
  · have heq : d6_loose ops h = d6_tight ops h := by
      unfold d6_loose
      rw [if_pos hflag]
    rw [heq]
    exact d6_tight_step ops h hc
  · by_cases hsome : h.d6_exact.isSome
    · have hs : h.d6_exact = some (d6v ops h.a) := by
        refine hc.hd6e.resolve_left (fun e => ?_)
        rw [e] at hsome
        cases hsome
      have heq : d6_loose ops h = (h.d6_exact.getD 0, h) := by
        unfold d6_loose
        rw [if_neg hflag, if_pos hsome]
      rw [heq]
      exact ⟨by rw [hs]; rfl, cacheMono_refl h, hc, rfl⟩
    · by_cases hap : h.d6_approx.isNone
      · obtain ⟨m, co, ha, hi, hu, hak, _, _, _, _, _, _, _, _, _, _, _, _⟩ :=
          calc_a6_step ops h hc
        have heq : d6_loose ops h =
            (ops.powf (one_norm ((calc_a6 h).a6.getD 0)) (1 / 6),
              { calc_a6 h with d6_approx := some (ops.powf (one_norm ((calc_a6 h).a6.getD 0)) (1 / 6)) }) := by
          unfold d6_loose
          rw [if_neg hflag, if_neg hsome, if_pos hap]
          rfl
        have hval : ops.powf (one_norm ((calc_a6 h).a6.getD 0)) (1 / 6)
            = d6v ops h.a := by
          rw [hak]
          rfl
        rw [heq]
        refine ⟨hval, ⟨fun x hx => m.a2 x hx, fun x hx => m.a4 x hx, fun x hx => m.a6 x hx, fun x hx => m.a8 x hx, fun x hx => m.a10 x hx, fun x hx => m.d4e x hx, fun x hx => m.d6e x hx, fun x hx => m.d8e x hx, fun x hx => m.d10e x hx, fun x hx => m.d4a x hx, ?_, fun x hx => m.d8a x hx, fun x hx => m.d10a x hx⟩, ⟨co.ha2, co.ha4, co.ha6, co.ha8, co.ha10, co.hd4e, co.hd6e, co.hd8e, co.hd10e, co.hd4a, Or.inr ?_, co.hd8a, co.hd10a⟩, ha⟩
        · intro x hx
          rw [Option.isNone_iff_eq_none.mp hap] at hx
          cases hx
        · show some (ops.powf (one_norm ((calc_a6 h).a6.getD 0)) (1 / 6))
            = some (d6v ops (calc_a6 h).a)
          rw [hak, ha]
          rfl
      · have hs : h.d6_approx = some (d6v ops h.a) :=
          hc.hd6a.resolve_left (fun e => hap (by rw [e]; rfl))
        have heq : d6_loose ops h = (h.d6_approx.getD 0, h) := by
          unfold d6_loose
          rw [if_neg hflag, if_neg hsome, if_neg hap]
        rw [heq]
        exact ⟨by rw [hs]; rfl, cacheMono_refl h, hc, rfl⟩

theorem d8_tight_step (ops : ScalarOps R) (h : ExpmPadeHelper n R)
    (hc : Coherent ops h) :
    (d8_tight ops h).1 = d8v ops h.a ∧ CacheMono h (d8_tight ops h).2 ∧
    Coherent ops (d8_tight ops h).2 ∧ (d8_tight ops h).2.a = h.a := by
  by_cases hd : h.d8_exact.isNone
  · obtain ⟨m, co, ha, hi, hu, hak, _, _, _, _, _, _, _, _, _, _, _, _⟩ :=
      calc_a8_step ops h hc
    have heq : d8_tight ops h =
        (ops.powf (one_norm ((calc_a8 h).a8.getD 0)) (1 / 8),
          { calc_a8 h with d8_exact := some (ops.powf (one_norm ((calc_a8 h).a8.getD 0)) (1 / 8)) }) := by
      unfold d8_tight
      rw [if_pos hd]
      rfl
    have hval : ops.powf (one_norm ((calc_a8 h).a8.getD 0)) (1 / 8)
        = d8v ops h.a := by
      rw [hak]
      rfl
    rw [heq]
    refine ⟨hval, ⟨fun x hx => m.a2 x hx, fun x hx => m.a4 x hx, fun x hx => m.a6 x hx, fun x hx => m.a8 x hx, fun x hx => m.a10 x hx, fun x hx => m.d4e x hx, fun x hx => m.d6e x hx, ?_, fun x hx => m.d10e x hx, fun x hx => m.d4a x hx, fun x hx => m.d6a x hx, fun x hx => m.d8a x hx, fun x hx => m.d10a x hx⟩, ⟨co.ha2, co.ha4, co.ha6, co.ha8, co.ha10, co.hd4e, co.hd6e, Or.inr ?_, co.hd10e, co.hd4a, co.hd6a, co.hd8a, co.hd10a⟩, ha⟩
    · intro x hx
      rw [Option.isNone_iff_eq_none.mp hd] at hx
      cases hx
    · show some (ops.powf (one_norm ((calc_a8 h).a8.getD 0)) (1 / 8))
        = some (d8v ops (calc_a8 h).a)
      rw [hak, ha]
      rfl
  · have hs : h.d8_exact = some (d8v ops h.a) :=
      hc.hd8e.resolve_left (fun e => hd (by rw [e]; rfl))
    have heq : d8_tight ops h = (h.d8_exact.getD 0, h) := by
      unfold d8_tight
      rw [if_neg hd]
    rw [heq]
    exact ⟨by rw [hs]; rfl, cacheMono_refl h, hc, rfl⟩

theorem d8_loose_step (ops : ScalarOps R) (h : ExpmPadeHelper n R)
    (hc : Coherent ops h) :
    (d8_loose ops h).1 = d8v ops h.a ∧ CacheMono h (d8_loose ops h).2 ∧
    Coherent ops (d8_loose ops h).2 ∧ (d8_loose ops h).2.a = h.a := by
  by_cases hflag : h.use_exact_norm
  · have heq : d8_loose ops h = d8_tight ops h := by
      unfold d8_loose
      rw [if_pos hflag]
    rw [heq]
    exact d8_tight_step ops h hc
  · by_cases hsome : h.d8_exact.isSome
    · have hs : h.d8_exact = some (d8v ops h.a) := by
        refine hc.hd8e.resolve_left (fun e => ?_)
        rw [e] at hsome
        cases hsome
      have heq : d8_loose ops h = (h.d8_exact.getD 0, h) := by
        unfold d8_loose
        rw [if_neg hflag, if_pos hsome]
      rw [heq]
      exact ⟨by rw [hs]; rfl, cacheMono_refl h, hc, rfl⟩
    · by_cases hap : h.d8_approx.isNone
      · obtain ⟨m, co, ha, hi, hu, hak, _, _, _, _, _, _, _, _, _, _, _, _⟩ :=
          calc_a8_step ops h hc
        have heq : d8_loose ops h =
            (ops.powf (one_norm ((calc_a8 h).a8.getD 0)) (1 / 8),
              { calc_a8 h with d8_approx := some (ops.powf (one_norm ((calc_a8 h).a8.getD 0)) (1 / 8)) }) := by
          unfold d8_loose
          rw [if_neg hflag, if_neg hsome, if_pos hap]
          rfl
        have hval : ops.powf (one_norm ((calc_a8 h).a8.getD 0)) (1 / 8)
            = d8v ops h.a := by
          rw [hak]
          rfl
        rw [heq]
        refine ⟨hval, ⟨fun x hx => m.a2 x hx, fun x hx => m.a4 x hx, fun x hx => m.a6 x hx, fun x hx => m.a8 x hx, fun x hx => m.a10 x hx, fun x hx => m.d4e x hx, fun x hx => m.d6e x hx, fun x hx => m.d8e x hx, fun x hx => m.d10e x hx, fun x hx => m.d4a x hx, fun x hx => m.d6a x hx, ?_, fun x hx => m.d10a x hx⟩, ⟨co.ha2, co.ha4, co.ha6, co.ha8, co.ha10, co.hd4e, co.hd6e, co.hd8e, co.hd10e, co.hd4a, co.hd6a, Or.inr ?_, co.hd10a⟩, ha⟩
        · intro x hx
          rw [Option.isNone_iff_eq_none.mp hap] at hx
          cases hx
        · show some (ops.powf (one_norm ((calc_a8 h).a8.getD 0)) (1 / 8))
            = some (d8v ops (calc_a8 h).a)
          rw [hak, ha]
          rfl
      · have hs : h.d8_approx = some (d8v ops h.a) :=
          hc.hd8a.resolve_left (fun e => hap (by rw [e]; rfl))
        have heq : d8_loose ops h = (h.d8_approx.getD 0, h) := by
          unfold d8_loose
          rw [if_neg hflag, if_neg hsome, if_neg hap]
        rw [heq]
        exact ⟨by rw [hs]; rfl, cacheMono_refl h, hc, rfl⟩

theorem d10_tight_step (ops : ScalarOps R) (h : ExpmPadeHelper n R)
    (hc : Coherent ops h) :
    (d10_tight ops h).1 = d10v ops h.a ∧ CacheMono h (d10_tight ops h).2 ∧
    Coherent ops (d10_tight ops h).2 ∧ (d10_tight ops h).2.a = h.a := by
  by_cases hd : h.d10_exact.isNone
  · obtain ⟨m, co, ha, hi, hu, hak, _, _, _, _, _, _, _, _, _, _, _, _⟩ :=
      calc_a10_step ops h hc
    have heq : d10_tight ops h =
        (ops.powf (one_norm ((calc_a10 h).a10.getD 0)) (1 / 10),
          { calc_a10 h with d10_exact := some (ops.powf (one_norm ((calc_a10 h).a10.getD 0)) (1 / 10)) }) := by
      unfold d10_tight
      rw [if_pos hd]
      rfl
    have hval : ops.powf (one_norm ((calc_a10 h).a10.getD 0)) (1 / 10)
        = d10v ops h.a := by
      rw [hak]
      rfl
    rw [heq]
    refine ⟨hval, ⟨fun x hx => m.a2 x hx, fun x hx => m.a4 x hx, fun x hx => m.a6 x hx, fun x hx => m.a8 x hx, fun x hx => m.a10 x hx, fun x hx => m.d4e x hx, fun x hx => m.d6e x hx, fun x hx => m.d8e x hx, ?_, fun x hx => m.d4a x hx, fun x hx => m.d6a x hx, fun x hx => m.d8a x hx, fun x hx => m.d10a x hx⟩, ⟨co.ha2, co.ha4, co.ha6, co.ha8, co.ha10, co.hd4e, co.hd6e, co.hd8e, Or.inr ?_, co.hd4a, co.hd6a, co.hd8a, co.hd10a⟩, ha⟩
    · intro x hx
      rw [Option.isNone_iff_eq_none.mp hd] at hx
      cases hx
    · show some (ops.powf (one_norm ((calc_a10 h).a10.getD 0)) (1 / 10))
        = some (d10v ops (calc_a10 h).a)
      rw [hak, ha]
      rfl
  · have hs : h.d10_exact = some (d10v ops h.a) :=
      hc.hd10e.resolve_left (fun e => hd (by rw [e]; rfl))
    have heq : d10_tight ops h = (h.d10_exact.getD 0, h) := by
      unfold d10_tight
      rw [if_neg hd]
    rw [heq]
    exact ⟨by rw [hs]; rfl, cacheMono_refl h, hc, rfl⟩

theorem d10_loose_step (ops : ScalarOps R) (h : ExpmPadeHelper n R)
    (hc : Coherent ops h) :
    (d10_loose ops h).1 = d10v ops h.a ∧ CacheMono h (d10_loose ops h).2 ∧
    Coherent ops (d10_loose ops h).2 ∧ (d10_loose ops h).2.a = h.a := by
  by_cases hflag : h.use_exact_norm
  · have heq : d10_loose ops h = d10_tight ops h := by
      unfold d10_loose
      rw [if_pos hflag]
    rw [heq]
    exact d10_tight_step ops h hc
  · by_cases hsome : h.d10_exact.isSome
    · have hs : h.d10_exact = some (d10v ops h.a) := by
        refine hc.hd10e.resolve_left (fun e => ?_)
        rw [e] at hsome
        cases hsome
      have heq : d10_loose ops h = (h.d10_exact.getD 0, h) := by
        unfold d10_loose
        rw [if_neg hflag, if_pos hsome]
      rw [heq]
      exact ⟨by rw [hs]; rfl, cacheMono_refl h, hc, rfl⟩
    · by_cases hap : h.d10_approx.isNone
      · obtain ⟨m, co, ha, hi, hu, hak, _, _, _, _, _, _, _, _, _, _, _, _⟩ :=
          calc_a10_step ops h hc
        have heq : d10_loose ops h =
            (ops.powf (one_norm ((calc_a10 h).a10.getD 0)) (1 / 10),
              { calc_a10 h with d10_approx := some (ops.powf (one_norm ((calc_a10 h).a10.getD 0)) (1 / 10)) }) := by
          unfold d10_loose
          rw [if_neg hflag, if_neg hsome, if_pos hap]
          rfl
        have hval : ops.powf (one_norm ((calc_a10 h).a10.getD 0)) (1 / 10)
            = d10v ops h.a := by
          rw [hak]
          rfl
        rw [heq]
        refine ⟨hval, ⟨fun x hx => m.a2 x hx, fun x hx => m.a4 x hx, fun x hx => m.a6 x hx, fun x hx => m.a8 x hx, fun x hx => m.a10 x hx, fun x hx => m.d4e x hx, fun x hx => m.d6e x hx, fun x hx => m.d8e x hx, fun x hx => m.d10e x hx, fun x hx => m.d4a x hx, fun x hx => m.d6a x hx, fun x hx => m.d8a x hx, ?_⟩, ⟨co.ha2, co.ha4, co.ha6, co.ha8, co.ha10, co.hd4e, co.hd6e, co.hd8e, co.hd10e, co.hd4a, co.hd6a, co.hd8a, Or.inr ?_⟩, ha⟩
        · intro x hx
          rw [Option.isNone_iff_eq_none.mp hap] at hx
          cases hx
        · show some (ops.powf (one_norm ((calc_a10 h).a10.getD 0)) (1 / 10))
            = some (d10v ops (calc_a10 h).a)
          rw [hak, ha]
          rfl
      · have hs : h.d10_approx = some (d10v ops h.a) :=
          hc.hd10a.resolve_left (fun e => hap (by rw [e]; rfl))
        have heq : d10_loose ops h = (h.d10_approx.getD 0, h) := by
          unfold d10_loose
          rw [if_neg hflag, if_neg hsome, if_neg hap]
        rw [heq]
        exact ⟨by rw [hs]; rfl, cacheMono_refl h, hc, rfl⟩


theorem calc_a2_frame (h : ExpmPadeHelper n R) :
    (calc_a2 h).a6 = h.a6 ∧ (calc_a2 h).a8 = h.a8 ∧ (calc_a2 h).a10 = h.a10 := by
  unfold calc_a2
  split
  · exact ⟨rfl, rfl, rfl⟩
  · exact ⟨rfl, rfl, rfl⟩

theorem calc_a4_frame (h : ExpmPadeHelper n R) :
    (calc_a4 h).a6 = h.a6 ∧ (calc_a4 h).a8 = h.a8 ∧ (calc_a4 h).a10 = h.a10 := by
  unfold calc_a4
  split
  · exact ⟨(calc_a2_frame h).1, (calc_a2_frame h).2.1, (calc_a2_frame h).2.2⟩
  · exact ⟨rfl, rfl, rfl⟩

theorem calc_a6_out (h : ExpmPadeHelper n R) :
    (calc_a6 h).a8 = h.a8 ∧ (calc_a6 h).a10 = h.a10 ∧
    ((calc_a6 h).a6).isSome = true := by
  unfold calc_a6
  split
  · refine ⟨?_, ?_, rfl⟩
    · exact ((calc_a4_frame (calc_a2 h)).2.1).trans (calc_a2_frame h).2.1
    · exact ((calc_a4_frame (calc_a2 h)).2.2).trans (calc_a2_frame h).2.2
  · next hcond =>
    refine ⟨rfl, rfl, ?_⟩
    cases e : h.a6 with
    | none => exact absurd (by rw [e]; rfl) hcond
    | some x => rfl

theorem a2v_pow (A : Mat n R) : a2v A = A ^ 2 := (pow_two A).symm

theorem a4v_pow (A : Mat n R) : a4v A = A ^ 4 := by
  unfold a4v
  rw [a2v_pow, ← pow_add]

theorem a6v_pow (A : Mat n R) : a6v A = A ^ 6 := by
  unfold a6v
  rw [a4v_pow, a2v_pow, ← pow_add]

theorem a8v_pow (A : Mat n R) : a8v A = A ^ 8 := by
  unfold a8v
  rw [a6v_pow, a2v_pow, ← pow_add]

theorem a10v_pow (A : Mat n R) : a10v A = A ^ 10 := by
  unfold a10v
  rw [a6v_pow, a4v_pow, ← pow_add]

/-- Claim C4: `one_norm(M)` equals the maximum, over columns, of the sum of
absolute values of that column's entries; in particular on the row-major matrix
`[[-3,5,7],[2,6,4],[0,2,8]]` it returns exactly `19` (column absolute sums 5,
13, 19). -/
theorem claim_C4 :
    (∀ (k : ℕ), 0 < k → ∀ M : Mat k R,
      IsGreatest {x : R | ∃ j : Fin k, x = ∑ i, |M i j|} (one_norm M)) ∧
    one_norm (!![(-3 : R), 5, 7; 2, 6, 4; 0, 2, 8]) = 19 := by
  constructor
  · intro k hk M
    constructor
    · obtain ⟨j, hj⟩ := one_norm_eq_col M hk
      exact ⟨j, hj⟩
    · rintro x ⟨j, rfl⟩
      exact one_norm_col_le M j
  · have e : List.finRange 3 = [0, 1, 2] := by decide
    unfold one_norm
    rw [e]
    simp only [List.foldl_cons, List.foldl_nil]
    have v1 : |(-3 : R)| = 3 := by
      rw [abs_of_nonpos (by norm_num)]
      norm_num
    have v2 : |(5 : R)| = 5 := abs_of_nonneg (by norm_num)
    have v3 : |(7 : R)| = 7 := abs_of_nonneg (by norm_num)
    have v4 : |(2 : R)| = 2 := abs_of_nonneg (by norm_num)
    have v5 : |(6 : R)| = 6 := abs_of_nonneg (by norm_num)
    have v6 : |(4 : R)| = 4 := abs_of_nonneg (by norm_num)
    have v7 : |(0 : R)| = 0 := abs_of_nonneg (by norm_num)
    have v8 : |(8 : R)| = 8 := abs_of_nonneg (by norm_num)
    simp only [Matrix.cons_val', Matrix.cons_val_zero, Matrix.cons_val_one,
      Matrix.head_cons, Matrix.empty_val', Matrix.cons_val_fin_one,
      Matrix.head_fin_const, Matrix.cons_val_two, Matrix.tail_cons, Matrix.of_apply,
      v1, v2, v3, v4, v5, v6, v7, v8]
    rw [show (0 : R) + 3 + 2 + 0 = 5 by norm_num, show (0 : R) + 5 + 6 + 2 = 13 by
      norm_num, show (0 : R) + 7 + 4 + 8 = 19 by norm_num]
    rw [max_eq_right (by norm_num : (0 : R) ≤ 5),
      max_eq_right (by norm_num : (5 : R) ≤ 13),
      max_eq_right (by norm_num : (13 : R) ≤ 19)]

theorem claim_C4_witness :
    IsGreatest {x : ℚ | ∃ j : Fin 3,
        x = ∑ i, |(!![(-3 : ℚ), 5, 7; 2, 6, 4; 0, 2, 8]) i j|}
      (one_norm (!![(-3 : ℚ), 5, 7; 2, 6, 4; 0, 2, 8])) ∧
    one_norm (!![(-3 : ℚ), 5, 7; 2, 6, 4; 0, 2, 8]) = 19 :=
  ⟨(claim_C4 (R := ℚ)).1 3 (by decide) _, (claim_C4 (R := ℚ)).2⟩

/-- Claim C5: for `m ≥ 1` (the program uses `m ∈ {3,5,7,9,13}`), `ell` takes the
entrywise absolute value, estimates the 1-norm of `|A|^(2m+1)` by the
transpose-times-ones iteration, returns 0 on a zero estimate, and otherwise
divides by `one_norm(A)` and by the exact constant `C(2m,m)·(2m+1)!` and
computes the clipped `ceil(log2(alpha/u)/(2m))` with `u = 2⁻⁵³`, as an unsigned
integer. -/
theorem claim_C5 (ops : ScalarOps R) (A : Mat n R) (m : ℕ) (hm : 1 ≤ m) :
    ell ops A m = ell_spec ops A m := by
  unfold ell ell_spec
  rw [Nat.choose_eq_factorial_div_factorial (by omega : m ≤ 2 * m)]

theorem claim_C5_witness : ell ratOps (0 : Mat 2 ℚ) 3 = ell_spec ratOps (0 : Mat 2 ℚ) 3 :=
  claim_C5 ratOps (0 : Mat 2 ℚ) 3 (by decide)

/-- Claim C10 fails as stated: the `u128` factorial wraps modulo `2¹²⁸`, so it
does not return `n!` for every `n ≥ 1`; at `n = 35` (fuel 40 is more than
enough for the recursion to finish) the returned value is `35! mod 2¹²⁸ ≠ 35!`. -/
theorem claim_C10_counterexample : factorialFuel 40 35 ≠ some (Nat.factorial 35) := by
  decide

/-- Claim C10, amended: the recursive factorial (base case `n == 1`) terminates
with value `n! mod 2¹²⁸` for every `n ≥ 1` given fuel at least `n` — hence with
the exact value `n!` whenever `n! < 2¹²⁸`, which covers every argument `ell`
produces; for `n = 0` the base case is not reached within any fuel below
`2¹²⁸` (the wrapping decrement jumps to `2¹²⁸ - 1`); and for every `m ≥ 1` the
four factorial arguments of `ell` — `2m`, `m`, `2m−m`, `2m+1` — are all at
least 1, so each of those calls terminates. -/
theorem claim_C10_amended :
    (∀ x f : ℕ, 1 ≤ x → x ≤ f →
      factorialFuel f x = some (Nat.factorial x % 2 ^ 128)) ∧
    (∀ x f : ℕ, 1 ≤ x → x ≤ f → Nat.factorial x < 2 ^ 128 →
      factorialFuel f x = some (Nat.factorial x)) ∧
    (∀ f : ℕ, f < 2 ^ 128 → factorialFuel f 0 = none) ∧
    (∀ m : ℕ, 1 ≤ m → ∀ f : ℕ, 2 * m + 1 ≤ f →
      (factorialFuel f (2 * m)).isSome = true ∧
      (factorialFuel f m).isSome = true ∧
      (factorialFuel f (2 * m - m)).isSome = true ∧
      (factorialFuel f (2 * m + 1)).isSome = true) := by
  refine ⟨factorialFuel_eq_of_le, ?_, factorialFuel_zero_input, ?_⟩
  · intro x f h1 hf hlt
    rw [factorialFuel_eq_of_le x f h1 hf, Nat.mod_eq_of_lt hlt]
  · intro m hm f hf
    have e : 2 * m - m = m := by omega
    refine ⟨?_, ?_, ?_, ?_⟩
    · rw [factorialFuel_eq_of_le (2 * m) f (by omega) (by omega)]; rfl
    · rw [factorialFuel_eq_of_le m f (by omega) (by omega)]; rfl
    · rw [e, factorialFuel_eq_of_le m f (by omega) (by omega)]; rfl
    · rw [factorialFuel_eq_of_le (2 * m + 1) f (by omega) (by omega)]; rfl

theorem claim_C10_witness :
    factorialFuel 5 5 = some (Nat.factorial 5) ∧ factorialFuel 7 0 = none ∧
    (factorialFuel 7 (2 * 3)).isSome = true :=
  ⟨claim_C10_amended.2.1 5 5 (by decide) (by decide) (by decide),
    claim_C10_amended.2.2.1 7 (by decide),
    (claim_C10_amended.2.2.2 3 (by decide) 7 (by decide)).1⟩

/-- Claim C1 fails as stated: at the concrete singular system `U = V = 0`
(where `Q = V − U = 0` has determinant zero) the source's
`q.lu().solve(&p).unwrap()` has no value to unwrap — the `none` here is the
panic of `.unwrap()`, an abort, not a returned failure value (the Rust return
type of `solve_p_q` is a plain matrix, not a `Result`). -/
theorem claim_C1_counterexample :
    solve_p_q (0 : Mat 2 ℚ) 0 = none ∧ ((0 : Mat 2 ℚ) - (0 : Mat 2 ℚ)).det = 0 := by
  constructor
  · show lu_solve ((0 : Mat 2 ℚ) - 0) ((0 : Mat 2 ℚ) + 0) = none
    rw [sub_zero, add_zero]
    unfold lu_solve
    rw [if_pos (Matrix.det_zero ⟨0⟩)]
  · rw [sub_zero]
    exact Matrix.det_zero ⟨0⟩

/-- Claim C1, amended: for every singular `Q = V − U`, the LU solve inside
`solve_p_q` reports failure and the `.unwrap()` panics, so `solve_p_q` aborts
(modelled as `none`) rather than returning a defined failure to its caller;
the recoverable report exists only inside the external solver. -/
theorem claim_C1_amended (u v : Mat n R) (hq : (v - u).det = 0) :
    solve_p_q u v = none := by
  show lu_solve (v - u) (u + v) = none
  unfold lu_solve
  rw [if_pos hq]

theorem claim_C1_witness : solve_p_q (0 : Mat 1 ℚ) 0 = none :=
  claim_C1_amended (0 : Mat 1 ℚ) 0 (by simp)

/-- Claim C8 fails as stated: `pade5` calls `calc_a2` and then `calc_a6`
(exp.rs lines 233-234), and `calc_a6` populates the `a6` slot; on a fresh
helper the `a6` slot is `none` before the call and populated after it. -/
theorem claim_C8_counterexample :
    ((pade5 (ExpmPadeHelper.new (0 : Mat 2 ℚ) true)).2.a6).isSome = true ∧
    (ExpmPadeHelper.new (0 : Mat 2 ℚ) true).a6 = none ∧
    (ExpmPadeHelper.new (0 : Mat 2 ℚ) true).a8 = none ∧
    (ExpmPadeHelper.new (0 : Mat 2 ℚ) true).a10 = none :=
  ⟨rfl, rfl, rfl, rfl⟩

/-- Claim C8, amended: for every helper whose `a6`, `a8` and `a10` slots are
empty, `pade5` leaves `a8` and `a10` unchanged (still empty) but populates
`a6` in addition to (at most) `a2` and `a4`, because it calls `calc_a6` even
though its formulas only read `a2` and `a4`. -/
theorem claim_C8_amended (h : ExpmPadeHelper n R) (h6 : h.a6 = none)
    (h8 : h.a8 = none) (h10 : h.a10 = none) :
    (pade5 h).2.a8 = none ∧ (pade5 h).2.a10 = none ∧
    ((pade5 h).2.a6).isSome = true := by
  have e : (pade5 h).2 = calc_a6 (calc_a2 h) := rfl
  rw [e]
  obtain ⟨f8, f10, hs⟩ := calc_a6_out (calc_a2 h)
  obtain ⟨g6, g8, g10⟩ := calc_a2_frame h
  exact ⟨by rw [f8, g8, h8], by rw [f10, g10, h10], hs⟩

theorem claim_C8_witness :
    (pade5 (ExpmPadeHelper.new (1 : Mat 2 ℚ) true)).2.a8 = none ∧
    (pade5 (ExpmPadeHelper.new (1 : Mat 2 ℚ) true)).2.a10 = none ∧
    ((pade5 (ExpmPadeHelper.new (1 : Mat 2 ℚ) true)).2.a6).isSome = true :=
  claim_C8_amended (ExpmPadeHelper.new (1 : Mat 2 ℚ) true) rfl rfl rfl

/-- Claim C6: on every cache-coherent helper state (in particular every state a
single `exp` call produces), each `d{k}_loose` returns the same value as
`d{k}_tight`, namely `one_norm(Aᵏ)^(1/k)` rendered through the collaborator
power `powf`: with `use_exact_norm` set the loose accessor delegates to the
tight one, with it clear it reads a populated exact slot or computes the
identical formula into the approximate slot — observationally the two
accessors agree as functions of the input matrix. -/
theorem claim_C6 (ops : ScalarOps R) (h : ExpmPadeHelper n R)
    (hc : Coherent ops h) :
    ((d4_loose ops h).1 = (d4_tight ops h).1 ∧
      (d4_tight ops h).1 = ops.powf (one_norm (h.a ^ 4)) (1 / 4)) ∧
    ((d6_loose ops h).1 = (d6_tight ops h).1 ∧
      (d6_tight ops h).1 = ops.powf (one_norm (h.a ^ 6)) (1 / 6)) ∧
    ((d8_loose ops h).1 = (d8_tight ops h).1 ∧
      (d8_tight ops h).1 = ops.powf (one_norm (h.a ^ 8)) (1 / 8)) ∧
    ((d10_loose ops h).1 = (d10_tight ops h).1 ∧
      (d10_tight ops h).1 = ops.powf (one_norm (h.a ^ 10)) (1 / 10)) := by
  obtain ⟨w4, _, _, _⟩ := d4_loose_step ops h hc
  obtain ⟨t4, _, _, _⟩ := d4_tight_step ops h hc
  obtain ⟨w6, _, _, _⟩ := d6_loose_step ops h hc
  obtain ⟨t6, _, _, _⟩ := d6_tight_step ops h hc
  obtain ⟨w8, _, _, _⟩ := d8_loose_step ops h hc
  obtain ⟨t8, _, _, _⟩ := d8_tight_step ops h hc
  obtain ⟨w10, _, _, _⟩ := d10_loose_step ops h hc
  obtain ⟨t10, _, _, _⟩ := d10_tight_step ops h hc
  refine ⟨⟨w4.trans t4.symm, ?_⟩, ⟨w6.trans t6.symm, ?_⟩, ⟨w8.trans t8.symm, ?_⟩,
    ⟨w10.trans t10.symm, ?_⟩⟩
  · rw [t4]
    unfold d4v
    rw [a4v_pow]
  · rw [t6]
    unfold d6v
    rw [a6v_pow]
  · rw [t8]
    unfold d8v
    rw [a8v_pow]
  · rw [t10]
    unfold d10v
    rw [a10v_pow]

theorem claim_C6_witness :
    ((d4_loose ratOps (ExpmPadeHelper.new (0 : Mat 2 ℚ) true)).1 =
        (d4_tight ratOps (ExpmPadeHelper.new (0 : Mat 2 ℚ) true)).1 ∧
      (d4_tight ratOps (ExpmPadeHelper.new (0 : Mat 2 ℚ) true)).1 =
        ratOps.powf (one_norm ((ExpmPadeHelper.new (0 : Mat 2 ℚ) true).a ^ 4)) (1 / 4)) ∧
    ((d6_loose ratOps (ExpmPadeHelper.new (0 : Mat 2 ℚ) true)).1 =
        (d6_tight ratOps (ExpmPadeHelper.new (0 : Mat 2 ℚ) true)).1 ∧
      (d6_tight ratOps (ExpmPadeHelper.new (0 : Mat 2 ℚ) true)).1 =
        ratOps.powf (one_norm ((ExpmPadeHelper.new (0 : Mat 2 ℚ) true).a ^ 6)) (1 / 6)) ∧
    ((d8_loose ratOps (ExpmPadeHelper.new (0 : Mat 2 ℚ) true)).1 =
        (d8_tight ratOps (ExpmPadeHelper.new (0 : Mat 2 ℚ) true)).1 ∧
      (d8_tight ratOps (ExpmPadeHelper.new (0 : Mat 2 ℚ) true)).1 =
        ratOps.powf (one_norm ((ExpmPadeHelper.new (0 : Mat 2 ℚ) true).a ^ 8)) (1 / 8)) ∧
    ((d10_loose ratOps (ExpmPadeHelper.new (0 : Mat 2 ℚ) true)).1 =
        (d10_tight ratOps (ExpmPadeHelper.new (0 : Mat 2 ℚ) true)).1 ∧
      (d10_tight ratOps (ExpmPadeHelper.new (0 : Mat 2 ℚ) true)).1 =
        ratOps.powf (one_norm ((ExpmPadeHelper.new (0 : Mat 2 ℚ) true).a ^ 10)) (1 / 10)) :=
  claim_C6 ratOps (ExpmPadeHelper.new (0 : Mat 2 ℚ) true)
    (coherent_new ratOps (0 : Mat 2 ℚ) true)

/-- Claim C7: the helper's optional cache slots (the five even powers and the
four exact plus four approximate norm scalars — thirteen slots as enumerated)
start empty on a fresh instance, and every helper operation is
cache-monotone — a populated slot keeps its exact value, so each slot is
computed at most once and never invalidated — while preserving coherence:
every populated power slot holds exactly the chain product
`A²=A·A, A⁴=A²·A², A⁶=A⁴·A², A⁸=A⁶·A², A¹⁰=A⁶·A⁴` of already-cached lower
powers, never a recomputation from `A` beyond that chain. -/
theorem claim_C7 (ops : ScalarOps R) :
    (∀ (A : Mat n R) (b : Bool), Coherent ops (ExpmPadeHelper.new A b)) ∧
    (∀ h : ExpmPadeHelper n R, Coherent ops h →
      (CacheMono h (calc_a2 h) ∧ Coherent ops (calc_a2 h)) ∧
      (CacheMono h (calc_a4 h) ∧ Coherent ops (calc_a4 h)) ∧
      (CacheMono h (calc_a6 h) ∧ Coherent ops (calc_a6 h)) ∧
      (CacheMono h (calc_a8 h) ∧ Coherent ops (calc_a8 h)) ∧
      (CacheMono h (calc_a10 h) ∧ Coherent ops (calc_a10 h)) ∧
      (CacheMono h (d4_tight ops h).2 ∧ Coherent ops (d4_tight ops h).2) ∧
      (CacheMono h (d6_tight ops h).2 ∧ Coherent ops (d6_tight ops h).2) ∧
      (CacheMono h (d8_tight ops h).2 ∧ Coherent ops (d8_tight ops h).2) ∧
      (CacheMono h (d10_tight ops h).2 ∧ Coherent ops (d10_tight ops h).2) ∧
      (CacheMono h (d4_loose ops h).2 ∧ Coherent ops (d4_loose ops h).2) ∧
      (CacheMono h (d6_loose ops h).2 ∧ Coherent ops (d6_loose ops h).2) ∧
      (CacheMono h (d8_loose ops h).2 ∧ Coherent ops (d8_loose ops h).2) ∧
      (CacheMono h (d10_loose ops h).2 ∧ Coherent ops (d10_loose ops h).2) ∧
      (CacheMono h (pade3 h).2 ∧ Coherent ops (pade3 h).2) ∧
      (CacheMono h (pade5 h).2 ∧ Coherent ops (pade5 h).2) ∧
      (CacheMono h (pade7 h).2 ∧ Coherent ops (pade7 h).2) ∧
      (CacheMono h (pade9 h).2 ∧ Coherent ops (pade9 h).2) ∧
      (∀ s : ℕ, CacheMono h (pade13_scaled ops h s).2 ∧
        Coherent ops (pade13_scaled ops h s).2)) := by
  refine ⟨coherent_new ops, ?_⟩
  intro h hc
  obtain ⟨m2, co2, _⟩ := calc_a2_step ops h hc
  obtain ⟨m4, co4, _⟩ := calc_a4_step ops h hc
  obtain ⟨m6, co6, _⟩ := calc_a6_step ops h hc
  obtain ⟨m8, co8, _⟩ := calc_a8_step ops h hc
  obtain ⟨m10, co10, _⟩ := calc_a10_step ops h hc
  obtain ⟨_, mt4, ct4, _⟩ := d4_tight_step ops h hc
  obtain ⟨_, mt6, ct6, _⟩ := d6_tight_step ops h hc
  obtain ⟨_, mt8, ct8, _⟩ := d8_tight_step ops h hc
  obtain ⟨_, mt10, ct10, _⟩ := d10_tight_step ops h hc
  obtain ⟨_, ml4, cl4, _⟩ := d4_loose_step ops h hc
  obtain ⟨_, ml6, cl6, _⟩ := d6_loose_step ops h hc
  obtain ⟨_, ml8, cl8, _⟩ := d8_loose_step ops h hc
  obtain ⟨_, ml10, cl10, _⟩ := d10_loose_step ops h hc
  obtain ⟨n6, q6, _⟩ := calc_a6_step ops (calc_a2 h) co2
  obtain ⟨n4, q4, _⟩ := calc_a4_step ops (calc_a2 h) co2
  obtain ⟨n6', q6', _⟩ := calc_a6_step ops (calc_a4 (calc_a2 h)) q4
  obtain ⟨n8', q8', _⟩ := calc_a8_step ops (calc_a6 (calc_a4 (calc_a2 h))) q6'
  exact ⟨⟨m2, co2⟩, ⟨m4, co4⟩, ⟨m6, co6⟩, ⟨m8, co8⟩, ⟨m10, co10⟩,
    ⟨mt4, ct4⟩, ⟨mt6, ct6⟩, ⟨mt8, ct8⟩, ⟨mt10, ct10⟩,
    ⟨ml4, cl4⟩, ⟨ml6, cl6⟩, ⟨ml8, cl8⟩, ⟨ml10, cl10⟩,
    ⟨m2, co2⟩, ⟨cacheMono_trans m2 n6, q6⟩,
    ⟨cacheMono_trans m2 (cacheMono_trans n4 n6'), q6'⟩,
    ⟨cacheMono_trans m2 (cacheMono_trans n4 (cacheMono_trans n6' n8')), q8'⟩,
    fun _ => ⟨cacheMono_trans m2 (cacheMono_trans n4 n6'), q6'⟩⟩

theorem claim_C7_witness :
    Coherent ratOps (ExpmPadeHelper.new (0 : Mat 2 ℚ) true) ∧
    (CacheMono (ExpmPadeHelper.new (0 : Mat 2 ℚ) true)
        (calc_a2 (ExpmPadeHelper.new (0 : Mat 2 ℚ) true)) ∧
      Coherent ratOps (calc_a2 (ExpmPadeHelper.new (0 : Mat 2 ℚ) true))) :=
  ⟨(claim_C7 ratOps).1 (0 : Mat 2 ℚ) true,
    ((claim_C7 ratOps).2 (ExpmPadeHelper.new (0 : Mat 2 ℚ) true)
      ((claim_C7 ratOps).1 (0 : Mat 2 ℚ) true)).1⟩

/-- Claim C2: for dimension greater than 1, `exp` follows exactly the fixed
threshold cascade — the solved `pade3` pair exactly when
`max(d4_loose, d6_loose) < 1.495585217958292e-2` and `ell(A,3) = 0`; otherwise
the solved `pade5` pair exactly when `max(d4_tight, d6_loose) <
2.539398330063230e-1` and `ell(A,5) = 0`; otherwise `pade7` when
`max(d6_tight, d8_loose) < 9.504178996162932e-1` and `ell(A,7) = 0`; otherwise
`pade9` when that same quantity is below `2.097847961257068` and `ell(A,9) = 0`;
otherwise the degree-13 path — where, since `use_exact_norm` is true, every
accessor value equals the pure quantity `d{k}v A = one_norm(Aᵏ)^(1/k)`
(`exp_cascade` spells the cascade with those pure values and the pure Padé
pairs). -/
theorem claim_C2 (ops : ScalarOps R) (A : Mat n R) (hn : 2 ≤ n) :
    exp ops A = exp_cascade ops A :=
  exp_eq_exp_cascade ops A (by omega)

theorem claim_C2_witness : exp ratOps (0 : Mat 2 ℚ) = exp_cascade ratOps (0 : Mat 2 ℚ) :=
  claim_C2 ratOps (0 : Mat 2 ℚ) (by decide)

/-- Claim C3: on the degree-13 path (no earlier branch taken, dimension greater
than 1), the scaling exponent starts as 0 when
`eta5 = min(eta3, max(d8,d10)) = 0` and otherwise as the clipped
`ceil(log2(eta5/4.25))` (the source realizes `max(0,·)` as a negative test
before the unsigned cast), is then increased by `ell(A·2⁻ˢ, 13)`, and the final
result is the solution of the scaled degree-13 Padé system squared exactly `s`
times. -/
theorem claim_C3 (ops : ScalarOps R) (A : Mat n R) (hn : 2 ≤ n)
    (h3 : ¬(max (d4v ops A) (d6v ops A) < (1.495585217958292e-2 : R) ∧
      ell ops A 3 = 0))
    (h5 : ¬(max (d4v ops A) (d6v ops A) < (2.539398330063230e-1 : R) ∧
      ell ops A 5 = 0))
    (h7 : ¬(max (d6v ops A) (d8v ops A) < (9.504178996162932e-1 : R) ∧
      ell ops A 7 = 0))
    (h9 : ¬(max (d6v ops A) (d8v ops A) < (2.097847961257068e0 : R) ∧
      ell ops A 9 = 0)) :
    exp ops A =
      (let eta_5 := min (max (d6v ops A) (d8v ops A))
        (max (d8v ops A) (d10v ops A))
       let s0 : ℕ :=
         if eta_5 = 0 then 0
         else
           let l2 := ops.ceil (ops.log2 (eta_5 / (4.25 : R)))
           if l2 < 0 then 0 else ops.toU64 l2
       let s := s0 + ell ops (ops.powf 2 (-(s0 : R)) • A) 13
       Option.map (square_iter s)
         (solve_p_q (pade13_of ops A s).1 (pade13_of ops A s).2)) := by
  rw [exp_eq_exp_cascade ops A (by omega)]
  unfold exp_cascade
  rw [if_neg h3, if_neg h5, if_neg h7, if_neg h9]

theorem claim_C3_witness :
    exp ratOpsBig (0 : Mat 2 ℚ) =
      (let eta_5 := min (max (d6v ratOpsBig (0 : Mat 2 ℚ)) (d8v ratOpsBig (0 : Mat 2 ℚ)))
        (max (d8v ratOpsBig (0 : Mat 2 ℚ)) (d10v ratOpsBig (0 : Mat 2 ℚ)))
       let s0 : ℕ :=
         if eta_5 = 0 then 0
         else
           let l2 := ratOpsBig.ceil (ratOpsBig.log2 (eta_5 / (4.25 : ℚ)))
           if l2 < 0 then 0 else ratOpsBig.toU64 l2
       let s := s0 + ell ratOpsBig (ratOpsBig.powf 2 (-(s0 : ℚ)) • (0 : Mat 2 ℚ)) 13
       Option.map (square_iter s)
         (solve_p_q (pade13_of ratOpsBig (0 : Mat 2 ℚ) s).1
           (pade13_of ratOpsBig (0 : Mat 2 ℚ) s).2)) :=
  claim_C3 ratOpsBig (0 : Mat 2 ℚ) (by decide)
    (by norm_num [d4v, d6v, ratOpsBig])
    (by norm_num [d4v, d6v, ratOpsBig])
    (by norm_num [d6v, d8v, ratOpsBig])
    (by norm_num [d6v, d8v, ratOpsBig])

/-- Claim C9: for every dimension `D ≥ 1`, `exp` of the `D`-dimensional zero
matrix is the identity, exactly, in the embedded scalar field: for `D = 1` the
fast path maps the scalar exponential (`sexp 0 = 1`) over the matrix, and for
`D ≥ 2` the `pade3` branch is taken (its condition holds because
`one_norm(0)^(1/4) = 0`, `one_norm(0)^(1/6) = 0` and `ell(0,3) = 0`), with
`U = 0` and `V = 120·I`, and the solve of `120·I·X = 120·I` yields `I`. -/
theorem claim_C9 (D : ℕ) (hD : 1 ≤ D) (ops : ScalarOps R)
    (hs : ops.sexp 0 = 1) (h4 : ops.powf 0 (1 / 4) = 0)
    (h6 : ops.powf 0 (1 / 6) = 0) :
    exp ops (0 : Mat D R) = some 1 := by
  by_cases hD1 : D = 1
  · subst hD1
    unfold exp
    rw [if_pos rfl]
    congr 1
    ext i j
    rw [Matrix.map_apply, Matrix.zero_apply, hs, Subsingleton.elim i j,
      Matrix.one_apply_eq]
  · rw [exp_eq_exp_cascade ops 0 hD1]
    unfold exp_cascade
    have hz2 : a2v (0 : Mat D R) = 0 := by unfold a2v; rw [mul_zero]
    have hz4 : a4v (0 : Mat D R) = 0 := by unfold a4v; rw [hz2, mul_zero]
    have hz6 : a6v (0 : Mat D R) = 0 := by unfold a6v; rw [hz2, mul_zero]
    have hd4 : d4v ops (0 : Mat D R) = 0 := by
      unfold d4v
      rw [hz4, one_norm_zero]
      exact h4
    have hd6 : d6v ops (0 : Mat D R) = 0 := by
      unfold d6v
      rw [hz6, one_norm_zero]
      exact h6
    have hcond : max (d4v ops (0 : Mat D R)) (d6v ops (0 : Mat D R)) <
        (1.495585217958292e-2 : R) ∧ ell ops (0 : Mat D R) 3 = 0 := by
      constructor
      · rw [hd4, hd6, max_self]
        norm_num
      · exact ell_zero_matrix ops 3
    rw [if_pos hcond]
    have hu : (pade3_of (0 : Mat D R)).1 = 0 := by
      unfold pade3_of
      exact zero_mul _
    have hv : (pade3_of (0 : Mat D R)).2 = (120 : R) • (1 : Mat D R) := by
      show (12 : R) • a2v (0 : Mat D R) + (120 : R) • 1 = (120 : R) • 1
      rw [hz2, smul_zero, zero_add]
    rw [hu, hv]
    show lu_solve ((120 : R) • 1 - 0) (0 + (120 : R) • 1) = some 1
    rw [sub_zero, zero_add]
    unfold lu_solve
    have hne : ((120 : R) • (1 : Mat D R)).det ≠ 0 := by
      rw [Matrix.det_smul, Matrix.det_one, Fintype.card_fin, mul_one]
      exact pow_ne_zero D (by norm_num)
    rw [if_neg hne]
    congr 1
    rw [Matrix.adjugate_mul, smul_smul, inv_mul_cancel₀ hne, one_smul]

theorem claim_C9_witness : exp ratOps (0 : Mat 2 ℚ) = some 1 :=
  claim_C9 2 (by decide) ratOps rfl rfl rfl
